import Mathlib

/-!
Shallow embedding of the webhook-driven README regeneration service of this
repository, together with proofs about its behaviour.

The repository contains one actual source file with the webhook server
(`src/src/mastra/index.ts`) and two further variants of the same file
(`src/unnamed/part_002` and `src/unnamed/part_003`, both headed
`// src/mastra/index.ts`).  Each variant parses a GitHub push payload,
runs skip checks, fetches repository files over the GitHub REST API,
assembles a prompt, calls the README agent, and commits the generated
README back.

The embedding models each handler as a pure function from an abstract
environment (the outcomes of the outbound GitHub / model calls) and the
parsed-payload outcome to the HTTP response together with the ordered
trace of outbound calls the handler performed.  JavaScript exceptions are
modelled with `Except`; the `try`/`catch` blocks of the source become
explicit `match`es on `Except` values.  Base64 transport encoding and
decoding are abstracted as environment-supplied functions.  `console.log`
calls are pure logging and are not modelled.
-/

namespace AgentChallenge

/-- Helper for `strIncludes`: does `pat` occur as a contiguous run inside
the given character list? -/
def listHasInfix (pat : List Char) : List Char → Bool
  | [] => pat.isEmpty
  | c :: rest => pat.isPrefixOf (c :: rest) || listHasInfix pat rest

/-- JavaScript `String.prototype.includes(pat)`: substring containment. -/
def strIncludes (s pat : String) : Bool :=
  listHasInfix pat.data s.data

/-- JavaScript `String.prototype.endsWith(pat)`. -/
def strEndsWith (s pat : String) : Bool :=
  pat.data.isSuffixOf s.data

/-- JavaScript `String.prototype.startsWith(pat)`. -/
def strStartsWith (s pat : String) : Bool :=
  pat.data.isPrefixOf s.data

/-- JavaScript `String.prototype.substring(0, n)`. -/
def strTake (s : String) (n : Nat) : String :=
  String.mk (s.data.take n)

/-- JavaScript `String.prototype.trim()`: strip whitespace from both ends. -/
def strTrim (s : String) : String :=
  String.mk (((s.data.dropWhile Char.isWhitespace).reverse.dropWhile
    Char.isWhitespace).reverse)

/-- JavaScript `array.join(sep)` for an array of strings. -/
def joinWith (sep : String) : List String → String
  | [] => ""
  | [s] => s
  | s :: t :: rest => s ++ sep ++ joinWith sep (t :: rest)

/-- The `head_commit` object of `pushPayloadSchema` (all variants, lines
10-15): commit message plus the added / removed / modified path lists. -/
structure HeadCommit where
  message : String
  added : List String
  removed : List String
  modified : List String
  deriving DecidableEq, Repr

/-- The `repository.owner` object of `pushPayloadSchema`. -/
structure RepoOwner where
  login : String
  deriving DecidableEq, Repr

/-- The `repository` object of `pushPayloadSchema`. -/
structure Repository where
  name : String
  owner : RepoOwner
  default_branch : String
  deriving DecidableEq, Repr

/-- A push payload that passed `pushPayloadSchema.parse` (all variants,
lines 8-23).  `head_commit` is nullable. -/
structure PushData where
  ref : String
  head_commit : Option HeadCommit
  repository : Repository
  deriving DecidableEq, Repr

/-- A thrown GitHub / JavaScript error, as observed by the handlers: the
code inspects `error.status` (HTTP status of a failed API call) and
`error.message`. -/
structure GhError where
  status : Nat
  message : String
  deriving DecidableEq, Repr

/-- Response data of `octokit.repos.getContent`: the handlers look at the
optional `content` property (base64 file body) and the optional `sha`. -/
structure FileData where
  content : Option String
  sha : Option String
  deriving DecidableEq, Repr

/-- One entry of the git tree returned by `octokit.git.getTree`
(`part_002` lines 66-80, `part_003` lines 45-70). -/
structure TreeItem where
  path : Option String
  type : String
  deriving DecidableEq, Repr

/-- Result of `agent.generate`: the handlers read `response.text`, which
they defend against being absent (`response.text?.length`, `!newReadmeContent`). -/
structure GenResponse where
  text : Option String
  deriving DecidableEq, Repr

/-- Result of `octokit.repos.createOrUpdateFileContents`: the handlers
read `commitResult.data.commit.sha`. -/
structure CommitData where
  commit_sha : String
  deriving DecidableEq, Repr

/-- Abstract environment: the outcome of every outbound call a handler can
make.  `getContent` is keyed by path (owner / repo are fixed for the whole
request); `getTree` models `octokit.git.getTree` for `HEAD`;
`generate` models `agent.generate` keyed by the single user-message
content; `createOrUpdateFileContents` is keyed by commit message, file
content, optional sha and branch.  `Except.error` means the call threw.
`decodeBase64` / `encodeBase64` abstract the `Buffer` base64 transport
conversions and `githubTokenPresent` models `process.env.GITHUB_TOKEN`
(tested only by the `part_003` variant). -/
structure Env where
  getContent : String → Except GhError FileData
  getTree : Except GhError (List TreeItem)
  generate : String → Except GhError GenResponse
  createOrUpdateFileContents :
    String → String → Option String → String → Except GhError CommitData
  decodeBase64 : String → String
  encodeBase64 : String → String
  githubTokenPresent : Bool

/-- One outbound call performed by a handler, in order of execution. -/
inductive Call where
  | getContent (path : String)
  | getTree
  | generate (prompt : String)
  | commit (message : String) (content : String) (branch : String)
  deriving DecidableEq, Repr

/-- The JSON response the middleware returns for a webhook request:
`c.json({status:'skipped', reason})`, the success object, or the
`c.json({success:false, error, details?}, 500)` failure object. -/
inductive Response where
  | skipped (reason : String)
  | success (message : String)
  | failure (error : String) (details : Option String)
  deriving DecidableEq, Repr

/-- HTTP status of a response: `c.json` defaults to 200; every failure
object in the source is sent with explicit status 500. -/
def Response.httpStatus : Response → Nat
  | .skipped _ => 200
  | .success _ => 200
  | .failure _ _ => 500

/-- The `success` JSON field: present on success (`true`) and failure
(`false`) responses, absent on skip responses. -/
def Response.successFlag : Response → Option Bool
  | .skipped _ => none
  | .success _ => some true
  | .failure _ _ => some false

/-- Whether the response is a `{status:'skipped'}` response. -/
def Response.isSkipped : Response → Bool
  | .skipped _ => true
  | _ => false

/-- Whether the call is an `agent.generate` (model) call. -/
def Call.isGenerate : Call → Bool
  | .generate _ => true
  | _ => false

/-- Whether the call is a `createOrUpdateFileContents` (commit) call. -/
def Call.isCommit : Call → Bool
  | .commit _ _ _ => true
  | _ => false

/-- Whether the call is a `repos.getContent` (file read) call. -/
def Call.isGetContent : Call → Bool
  | .getContent _ => true
  | _ => false

/-- The body of `getFileContent`'s `try` block (index.ts lines 28-56,
`part_002` lines 26-40, `part_003` lines 26-36): fetch the file, and when
the response carries a `content` property return its base64-decoded text;
a missing `content` property falls through to `return null`. -/
def getFileContentTry (env : Env) (path : String) :
    Except GhError (Option String) :=
  match env.getContent path with
  | .ok fileData =>
    match fileData.content with
    | some b64 => .ok (some (env.decodeBase64 b64))
    | none => .ok none
  | .error e => .error e

/-- `getFileContent` (identical semantics in all three variants): the
`catch` block swallows every thrown error — 404 or otherwise — and the
function returns `null`. -/
def getFileContent (env : Env) (path : String) :
    Except GhError (Option String) :=
  match getFileContentTry env path with
  | .ok v => .ok v
  | .error _ => .ok none

/-- The value `getFileContent` hands to its caller (it never throws, as
proved below). -/
def getFileContentVal (env : Env) (path : String) : Option String :=
  match getFileContent env path with
  | .ok v => v
  | .error _ => none

/-- `relevantExtensions` (index.ts line 65, `part_002` line 47). -/
def relevantExtensions : List String :=
  [".ts", ".js", ".tsx", ".jsx", ".py", ".java", ".go", ".rs", ".cpp",
   ".c", ".php", ".rb", ".swift", ".kt", ".cs", ".vue", ".svelte", ".md",
   ".json", ".yaml", ".yml", ".toml", ".sql"]

/-- `excludePatterns` (index.ts line 66, `part_002` line 48). -/
def excludePatterns : List String :=
  ["/node_modules/", "/dist/", "/build/", "/.git/", "/coverage/",
   "/temp/", "/tmp/"]

/-- The filter predicate of `changedFiles.filter(...)` (index.ts lines
71-86, `part_002` lines 51-55): keep a file when it ends with a relevant
extension and contains no excluded directory pattern. -/
def isRelevantFile (file : String) : Bool :=
  (relevantExtensions.any fun ext => strEndsWith file ext) &&
  !(excludePatterns.any fun pat => strIncludes file pat)

/-- `relevantFiles = changedFiles.filter(...)` shared by index.ts and
`part_002`. -/
def relevantFilesOf (changedFiles : List String) : List String :=
  changedFiles.filter isRelevantFile

/-- `allChangedFiles` (index.ts lines 175-179, `part_002` lines 151-155,
`part_003` lines 216-220): the concatenation of the added, modified and
removed path lists of the head commit, in that order. -/
def allChangedFilesOf (head_commit : HeadCommit) : List String :=
  head_commit.added ++ head_commit.modified ++ head_commit.removed

namespace IndexTs

/-- The `for` loop of `getRelevantChangedFiles` (index.ts lines 96-107):
fetch each priority file and append `\n--- path ---\ncontent\n` whenever
the fetched content is truthy (non-null and non-empty).  Returns the
accumulated string together with the trace of `getContent` calls. -/
def changedFilesLoop (env : Env) : List String → String × List Call
  | [] => ("", [])
  | filePath :: rest =>
    let content := getFileContentVal env filePath
    let restR := changedFilesLoop env rest
    match content with
    | some c =>
      if c != "" then
        ("\n--- " ++ filePath ++ " ---\n" ++ c ++ "\n" ++ restR.1,
         Call.getContent filePath :: restR.2)
      else (restR.1, Call.getContent filePath :: restR.2)
    | none => (restR.1, Call.getContent filePath :: restR.2)

/-- `getRelevantChangedFiles` (index.ts lines 62-111): filter the changed
files, keep the first 10 (`relevantFiles.slice(0, 10)`), and concatenate
their fetched contents.  No truncation is applied to the content. -/
def getRelevantChangedFiles (env : Env) (changedFiles : List String) :
    String × List Call :=
  let relevantFiles := relevantFilesOf changedFiles
  let priorityFiles := relevantFiles.take 10
  changedFilesLoop env priorityFiles

/-- The commit message of index.ts line 284. -/
def commitMessage : String :=
  "docs: [AI] Update README.md based on recent changes"

/-- Continuation of the handler after the README sha lookup (index.ts
lines 270-306): `Buffer.from(readmeContent)` throws when the generated
text is absent, otherwise `createOrUpdateFileContents` is called; its
success yields the success JSON. -/
def commitStep (env : Env) (pushData : PushData)
    (readmeContent : Option String) (existingFileSha : Option String)
    (tr : List Call) : Except (GhError × List Call) (Response × List Call) :=
  match readmeContent with
  | none => .error ({ status := 0, message := "readmeContent is undefined" }, tr)
  | some text =>
    let body := env.encodeBase64 text
    let branch := pushData.repository.default_branch
    match env.createOrUpdateFileContents commitMessage body existingFileSha branch with
    | .error e => .error (e, tr ++ [Call.commit commitMessage body branch])
    | .ok _ => .ok (.success "README updated", tr ++ [Call.commit commitMessage body branch])

/-- The model-call-to-commit tail of the handler (index.ts lines
240-306): the single `agent.generate` call, the README sha lookup (a
non-404 failure of which rethrows), and the commit step.  `tr0` is the
trace of calls made before the model call. -/
def modelAndCommit (env : Env) (pushData : PushData)
    (contentToAnalyze : String) (tr0 : List Call) :
    Except (GhError × List Call) (Response × List Call) :=
  match env.generate contentToAnalyze with
  | .error e => .error (e, tr0 ++ [Call.generate contentToAnalyze])
  | .ok response =>
    let readmeContent := response.text
    let trace1 := tr0 ++ [Call.generate contentToAnalyze]
    match env.getContent "README.md" with
    | .ok existingFileData =>
      commitStep env pushData readmeContent existingFileData.sha
        (trace1 ++ [Call.getContent "README.md"])
    | .error e =>
      if e.status != 404 then
        .error (e, trace1 ++ [Call.getContent "README.md"])
      else
        commitStep env pushData readmeContent none
          (trace1 ++ [Call.getContent "README.md"])

/-- `packageJsonContent` (index.ts lines 187-197): the inline
`try`/`catch` around the `package.json` fetch; a thrown fetch error or a
missing `content` property (which makes `Buffer.from(undefined)` throw
into the same local catch) leaves the empty string. -/
def packageJsonContentOf (env : Env) : String :=
  match env.getContent "package.json" with
  | .ok fileData =>
    match fileData.content with
    | some b64 => env.decodeBase64 b64
    | none => ""
  | .error _ => ""

/-- `existingReadme` (index.ts lines 199-211), same shape as the
`package.json` fetch. -/
def existingReadmeOf (env : Env) : String :=
  match env.getContent "README.md" with
  | .ok fileData =>
    match fileData.content with
    | some b64 => env.decodeBase64 b64
    | none => ""
  | .error _ => ""

/-- `contentToAnalyze` (index.ts lines 220-235): the trimmed prompt
template. -/
def contentToAnalyzeOf (env : Env) (pushData : PushData)
    (head_commit : HeadCommit) : String :=
  let allChangedFiles := allChangedFilesOf head_commit
  let packageJsonContent := packageJsonContentOf env
  let existingReadme := existingReadmeOf env
  strTrim
    ("\nProject: " ++ pushData.repository.name ++
     "\nRecent changes summary: " ++ head_commit.message ++
     "\n\nFiles changed in this push:\n" ++
     joinWith "\n" (allChangedFiles.map fun file => "- " ++ file) ++
     "\n\n" ++
     (if packageJsonContent != "" then
       "Package.json:\n" ++ packageJsonContent ++ "\n" else "") ++
     "\n\n" ++
     (if existingReadme != "" then
       "Current README.md:\n" ++ existingReadme ++ "\n" else "") ++
     "\n\nContent of changed files:\n" ++
     (getRelevantChangedFiles env allChangedFiles).1 ++
     "\n\nPlease update the README.md based on these recent changes. Keep the existing structure but update relevant sections to reflect the new changes.\n            ")

/-- The calls made before the model call: the `package.json` fetch, the
`README.md` fetch, then the changed-file reads (index.ts lines 186-216). -/
def contextTraceOf (env : Env) (head_commit : HeadCommit) : List Call :=
  Call.getContent "package.json" :: Call.getContent "README.md" ::
    (getRelevantChangedFiles env (allChangedFilesOf head_commit)).2

/-- The body of the webhook `try` block of index.ts (lines 125-307):
payload parsing and validation, the early skip checks, the `package.json`
and `README.md` context fetches, the changed-file content aggregation, the
prompt, then `modelAndCommit`.  An `Except.error` result carries the
thrown error together with the trace of calls made before the throw. -/
def webhookTry (env : Env) (parse : Except GhError PushData) :
    Except (GhError × List Call) (Response × List Call) :=
  match parse with
  | .error e => .error (e, [])
  | .ok pushData =>
    match pushData.head_commit with
    | none => .ok (.skipped "No head_commit found", [])
    | some head_commit =>
      if strIncludes head_commit.message "[AI]" then
        .ok (.skipped "AI commit", [])
      else if pushData.ref != "refs/" ++ ("heads/" ++ pushData.repository.default_branch) then
        .ok (.skipped "Not default branch", [])
      else
        modelAndCommit env pushData (contentToAnalyzeOf env pushData head_commit)
          (contextTraceOf env head_commit)

/-- The webhook handler of index.ts: the `catch` block (lines 308-321)
turns any thrown error into the generic
`{success:false, error:'Failed to process push', details}, 500` response. -/
def handleWebhook (env : Env) (parse : Except GhError PushData) :
    Response × List Call :=
  match webhookTry env parse with
  | .ok r => r
  | .error (e, tr) => (.failure "Failed to process push" (some e.message), tr)

end IndexTs

namespace Part002

/-- Per-file truncation of `part_002` (lines 89 and 105):
`content.length > 2000 ? content.substring(0, 2000) + '\n...[truncated]' : content`. -/
def truncateContent (content : String) : String :=
  if content.length > 2000 then strTake content 2000 ++ "\n...[truncated]"
  else content

/-- The changed-files loop of `getProjectContext` (`part_002` lines
101-108): fetch each priority file and append its truncated content when
it is truthy and non-empty. -/
def changedFilesLoop (env : Env) : List String → String × List Call
  | [] => ("", [])
  | filePath :: rest =>
    let content := getFileContentVal env filePath
    let restR := changedFilesLoop env rest
    match content with
    | some c =>
      if c.length > 0 then
        ("\n--- " ++ filePath ++ " ---\n" ++ truncateContent c ++ "\n" ++ restR.1,
         Call.getContent filePath :: restR.2)
      else (restR.1, Call.getContent filePath :: restR.2)
    | none => (restR.1, Call.getContent filePath :: restR.2)

/-- The tree-entry filter of the fallback repository scan (`part_002`
lines 74-79): blobs with a truthy path that has a relevant extension and
no excluded pattern. -/
def isKeyFile (item : TreeItem) : Bool :=
  item.type == "blob" &&
  (match item.path with
   | some p => p != "" &&
       (relevantExtensions.any fun ext => strEndsWith p ext) &&
       !(excludePatterns.any fun pat => strIncludes p pat)
   | none => false)

/-- The fallback-scan loop (`part_002` lines 84-93): for each key tree
entry with a truthy path, fetch it and append its truncated content. -/
def scanLoop (env : Env) : List TreeItem → String × List Call
  | [] => ("", [])
  | item :: rest =>
    let restR := scanLoop env rest
    match item.path with
    | some p =>
      if p != "" then
        match getFileContentVal env p with
        | some c =>
          if c.length > 0 then
            ("\n--- " ++ p ++ " ---\n" ++ truncateContent c ++ "\n" ++ restR.1,
             Call.getContent p :: restR.2)
          else (restR.1, Call.getContent p :: restR.2)
        | none => (restR.1, Call.getContent p :: restR.2)
      else restR
    | none => restR

/-- `getProjectContext` (`part_002` lines 44-113): filter the changed
files; when none are relevant, scan the repository tree and read the
first 8 key files (a failed scan is caught and yields the empty context);
otherwise read the first 10 relevant changed files. -/
def getProjectContext (env : Env) (changedFiles : List String) :
    String × List Call :=
  let relevantFiles := relevantFilesOf changedFiles
  if relevantFiles.length == 0 then
    match env.getTree with
    | .ok repoTree =>
      let keyFiles := (repoTree.filter isKeyFile).take 8
      let s := scanLoop env keyFiles
      (s.1, Call.getTree :: s.2)
    | .error _ => ("", [Call.getTree])
  else
    changedFilesLoop env (relevantFiles.take 10)

/-- The commit message of `part_002` line 242. -/
def commitMessage : String :=
  "docs: [AI] Update README.md based on recent changes"

/-- Commit step of `part_002` (lines 237-259). -/
def commitStep (env : Env) (pushData : PushData) (newReadmeContent : String)
    (existingFileSha : Option String) (tr : List Call) :
    Except (GhError × List Call) (Response × List Call) :=
  let body := env.encodeBase64 newReadmeContent
  let branch := pushData.repository.default_branch
  match env.createOrUpdateFileContents commitMessage body existingFileSha branch with
  | .error e => .error (e, tr ++ [Call.commit commitMessage body branch])
  | .ok _ =>
    .ok (.success "README updated successfully",
      tr ++ [Call.commit commitMessage body branch])

/-- The model-call-to-commit tail of `part_002` (lines 215-259): the
single `agent.generate` call, the 50-character minimum-length guard (an
early 500 response, not a throw), the README sha lookup, and the commit
step.  `tr0` is the trace of calls made before the model call. -/
def modelAndCommit (env : Env) (pushData : PushData) (aiPrompt : String)
    (tr0 : List Call) : Except (GhError × List Call) (Response × List Call) :=
  match env.generate aiPrompt with
  | .error e => .error (e, tr0 ++ [Call.generate aiPrompt])
  | .ok response =>
    let trace1 := tr0 ++ [Call.generate aiPrompt]
    match response.text with
    | none => .ok (.failure "Generated README too short" none, trace1)
    | some newReadmeContent =>
      if newReadmeContent.length < 50 then
        .ok (.failure "Generated README too short" none, trace1)
      else
        match env.getContent "README.md" with
        | .ok existingFileData =>
          commitStep env pushData newReadmeContent existingFileData.sha
            (trace1 ++ [Call.getContent "README.md"])
        | .error e =>
          if e.status != 404 then
            .error (e, trace1 ++ [Call.getContent "README.md"])
          else
            commitStep env pushData newReadmeContent none
              (trace1 ++ [Call.getContent "README.md"])

/-- `aiPrompt` (`part_002` lines 180-210): the trimmed prompt template
over the package.json, README and project-context fetches. -/
def aiPromptOf (env : Env) (pushData : PushData) (head_commit : HeadCommit) :
    String :=
  let allChangedFiles := allChangedFilesOf head_commit
  let packageJsonContent := (getFileContentVal env "package.json").getD ""
  let existingReadme := (getFileContentVal env "README.md").getD ""
  let ctx := getProjectContext env allChangedFiles
  strTrim
    ("\n# README Update Task\n\n## Project Information\n- Repository: " ++
     pushData.repository.owner.login ++ "/" ++ pushData.repository.name ++
     "\n- Recent changes: " ++ head_commit.message ++
     "\n- Files changed: " ++ toString allChangedFiles.length ++
     " (" ++ toString head_commit.added.length ++ " added, " ++
     toString head_commit.modified.length ++ " modified, " ++
     toString head_commit.removed.length ++ " removed)" ++
     "\n\n## Changed Files List\n" ++
     joinWith "\n" (allChangedFiles.map fun file => "- " ++ file) ++
     "\n\n## Current Package.json\n" ++
     (if packageJsonContent != "" then packageJsonContent
      else "No package.json found") ++
     "\n\n## Current README.md\n" ++
     (if existingReadme != "" then existingReadme
      else "No existing README found") ++
     "\n\n## Project Code Context\n" ++
     (if ctx.1 != "" then ctx.1 else "No relevant code files found") ++
     "\n\n## Instructions\nGenerate a comprehensive and accurate README.md that:\n1. Reflects the current state of the project based on the code\n2. Includes proper installation instructions if applicable\n3. Explains what the project does clearly\n4. Documents key features and usage\n5. Updates any sections that need to reflect recent changes\n6. Maintains a professional and informative tone\n\nPlease generate the complete README.md content.\n            ")

/-- The calls made before the model call in `part_002` (lines 162-177):
the `package.json` and `README.md` fetches via `getFileContent`, then the
project-context calls. -/
def contextTraceOf (env : Env) (head_commit : HeadCommit) : List Call :=
  Call.getContent "package.json" :: Call.getContent "README.md" ::
    (getProjectContext env (allChangedFilesOf head_commit)).2

/-- The body of the webhook `try` block of `part_002` (lines 124-260).
The bot-commit skip check was removed in this variant (lines 135-136 are
only a comment recording the removal), so validation is: null
`head_commit`, then the default-branch check, then context fetches, the
prompt (`aiPromptOf`) and `modelAndCommit`. -/
def webhookTry (env : Env) (parse : Except GhError PushData) :
    Except (GhError × List Call) (Response × List Call) :=
  match parse with
  | .error e => .error (e, [])
  | .ok pushData =>
    match pushData.head_commit with
    | none => .ok (.skipped "No head_commit found", [])
    | some head_commit =>
      if pushData.ref != "refs/" ++ ("heads/" ++ pushData.repository.default_branch) then
        .ok (.skipped "Not default branch", [])
      else
        modelAndCommit env pushData (aiPromptOf env pushData head_commit)
          (contextTraceOf env head_commit)

/-- The webhook handler of `part_002`: the `catch` block (lines 261-274)
returns `{success:false, error:'Failed to process webhook', details}, 500`. -/
def handleWebhook (env : Env) (parse : Except GhError PushData) :
    Response × List Call :=
  match webhookTry env parse with
  | .ok r => r
  | .error (e, tr) => (.failure "Failed to process webhook" (some e.message), tr)

end Part002

namespace Part003

/-- `keyFilePatterns` (`part_003` lines 75-92). -/
def keyFilePatterns : List String :=
  ["package.json", "README.md", "Dockerfile", "docker-compose.yml",
   "docker-compose.yaml", ".env.example", "requirements.txt", "Cargo.toml",
   "go.mod", "pom.xml", "build.gradle", "tsconfig.json", "next.config.js",
   "next.config.ts", "vite.config.js", "vite.config.ts"]

/-- `importantExtensions` (`part_003` line 94). -/
def importantExtensions : List String :=
  [".ts", ".js", ".tsx", ".jsx", ".py", ".go", ".rs", ".java", ".cpp", ".c"]

/-- `excludePatterns` of `part_003` (line 95) — note: no leading slashes,
and different entries than the other variants. -/
def excludePatternsP3 : List String :=
  ["node_modules/", "dist/", "build/", ".git/", "coverage/",
   "__pycache__/", "target/"]

/-- Truthiness test `if (item.path)` on a tree entry. -/
def pathTruthy (item : TreeItem) : Bool :=
  match item.path with
  | some p => p != ""
  | none => false

/-- The blob paths of the repository tree (`part_003` lines 62-70). -/
def treeFiles (tree : List TreeItem) : List String :=
  (tree.filter fun item => pathTruthy item && item.type == "blob").filterMap
    (fun item => item.path)

/-- The directory paths of the repository tree (`part_003` lines 62-70). -/
def treeDirectories (tree : List TreeItem) : List String :=
  (tree.filter fun item => pathTruthy item && item.type == "tree").filterMap
    (fun item => item.path)

/-- The key-configuration-file loop (`part_003` lines 98-107): for each
pattern, `find` the first file equal to it or ending in `/pattern`, fetch
it, and record `(path, content)` when the content is truthy. -/
def keyFilesLoop (env : Env) (files : List String) :
    List String → List (String × String) × List Call
  | [] => ([], [])
  | pat :: rest =>
    let restR := keyFilesLoop env files rest
    match files.find? (fun f => f == pat || strEndsWith f ("/" ++ pat)) with
    | some foundFile =>
      match getFileContentVal env foundFile with
      | some content =>
        if content != "" then
          ((foundFile, content) :: restR.1, Call.getContent foundFile :: restR.2)
        else (restR.1, Call.getContent foundFile :: restR.2)
      | none => (restR.1, Call.getContent foundFile :: restR.2)
    | none => restR

/-- Per-file truncation of `part_003` (lines 125-126):
`content.length > 1500 ? content.substring(0, 1500) + '\n... [truncated for brevity]' : content`. -/
def truncateContent (content : String) : String :=
  if content.length > 1500 then strTake content 1500 ++ "\n... [truncated for brevity]"
  else content

/-- The source-file loop (`part_003` lines 121-129): fetch each selected
source file and record its truncated content when truthy. -/
def sourceFilesLoop (env : Env) : List String → List (String × String) × List Call
  | [] => ([], [])
  | filePath :: rest =>
    let restR := sourceFilesLoop env rest
    match getFileContentVal env filePath with
    | some content =>
      if content != "" then
        ((filePath, truncateContent content) :: restR.1,
         Call.getContent filePath :: restR.2)
      else (restR.1, Call.getContent filePath :: restR.2)
    | none => (restR.1, Call.getContent filePath :: restR.2)

/-- The source-file filter (`part_003` lines 111-116): important
extension, no excluded pattern, and located in `src/` or at the root. -/
def isSourceFile (f : String) : Bool :=
  (importantExtensions.any fun ext => strEndsWith f ext) &&
  !(excludePatternsP3.any fun pat => strIncludes f pat) &&
  (strStartsWith f "src/" || !(strIncludes f "/"))

/-- `getProjectStructure` (`part_003` lines 40-167): list the tree, read
the key configuration files and the first 10 source files, and render the
structure summary; a failed tree call is caught and yields the fixed
fallback string. -/
def getProjectStructure (env : Env) : String × List Call :=
  match env.getTree with
  | .error _ => ("Unable to analyze project structure.", [Call.getTree])
  | .ok repoTree =>
    let files := treeFiles repoTree
    let directories := treeDirectories repoTree
    let kf := keyFilesLoop env files keyFilePatterns
    let sourceFiles := (files.filter isSourceFile).take 10
    let sf := sourceFilesLoop env sourceFiles
    let keyFiles := kf.1 ++ sf.1
    let rootFiles := files.filter fun f => !(strIncludes f "/")
    let mainDirs := directories.filter fun d => !(strIncludes d "/")
    let srcFiles := files.filter fun f => strStartsWith f "src/"
    let structureSummary := "# Project Structure\n\n" ++
      (if rootFiles.length > 0 then
        "## Root Files\n" ++ joinWith "\n" (rootFiles.map fun f => "- " ++ f) ++ "\n\n"
       else "") ++
      (if mainDirs.length > 0 then
        "## Main Directories\n" ++
          joinWith "\n" (mainDirs.map fun d => "- " ++ d ++ "/") ++ "\n\n"
       else "") ++
      (if srcFiles.length > 0 then
        "## Source Files (src/)\n" ++
          joinWith "\n" ((srcFiles.take 20).map fun f => "- " ++ f) ++ "\n\n"
       else "") ++
      (if keyFiles.length > 0 then
        "## File Contents\n\n" ++
          String.join (keyFiles.map fun pc =>
            "### " ++ pc.1 ++ "\n```\n" ++ pc.2 ++ "\n```\n\n")
       else "")
    (structureSummary, Call.getTree :: (kf.2 ++ sf.2))

/-- The commit message of `part_003` line 297. -/
def commitMessage : String :=
  "docs: [AI] Update README.md based on project analysis"

/-- Commit step of `part_003` (lines 292-318). -/
def commitStep (env : Env) (pushData : PushData) (newReadmeContent : String)
    (existingFileSha : Option String) (tr : List Call) :
    Except (GhError × List Call) (Response × List Call) :=
  let body := env.encodeBase64 newReadmeContent
  let branch := pushData.repository.default_branch
  match env.createOrUpdateFileContents commitMessage body existingFileSha branch with
  | .error e => .error (e, tr ++ [Call.commit commitMessage body branch])
  | .ok _ =>
    .ok (.success "README.md updated based on project analysis",
      tr ++ [Call.commit commitMessage body branch])

/-- The model-call-to-commit tail of `part_003` (lines 264-318): the
single `agent.generate` call, the 100-character minimum-length guard (an
early 500 response, not a throw), the README sha lookup (404 creates a new
file, any other failure rethrows), and the commit step.  `tr0` is the
trace of calls made before the model call. -/
def modelAndCommit (env : Env) (pushData : PushData) (aiPrompt : String)
    (tr0 : List Call) : Except (GhError × List Call) (Response × List Call) :=
  match env.generate aiPrompt with
  | .error e => .error (e, tr0 ++ [Call.generate aiPrompt])
  | .ok response =>
    let trace1 := tr0 ++ [Call.generate aiPrompt]
    match response.text with
    | none => .ok (.failure "Generated README too short or empty" none, trace1)
    | some newReadmeContent =>
      if newReadmeContent.length < 100 then
        .ok (.failure "Generated README too short or empty" none, trace1)
      else
        match env.getContent "README.md" with
        | .ok existingFileData =>
          commitStep env pushData newReadmeContent existingFileData.sha
            (trace1 ++ [Call.getContent "README.md"])
        | .error e =>
          if e.status == 404 then
            commitStep env pushData newReadmeContent none
              (trace1 ++ [Call.getContent "README.md"])
          else
            .error (e, trace1 ++ [Call.getContent "README.md"])

/-- `aiPrompt` (`part_003` lines 234-262): the trimmed prompt template
over the commit metadata and the project-structure summary. -/
def aiPromptOf (env : Env) (pushData : PushData) (head_commit : HeadCommit) :
    String :=
  let allChangedFiles := allChangedFilesOf head_commit
  strTrim
    ("\nYou are tasked with creating a comprehensive README.md for this project.\n\n# Repository Information\n- **Repository:** " ++
     pushData.repository.owner.login ++ "/" ++ pushData.repository.name ++
     "\n- **Recent commit:** " ++ head_commit.message ++
     "\n- **Changed files:** " ++ toString allChangedFiles.length ++
     " files (" ++ toString head_commit.added.length ++ " added, " ++
     toString head_commit.modified.length ++ " modified, " ++
     toString head_commit.removed.length ++ " removed)" ++
     "\n\n# Recent Changes\n" ++
     (if allChangedFiles.length > 0 then
       joinWith "\n" (allChangedFiles.map fun file => "- " ++ file)
      else "No specific files changed in this commit") ++
     "\n\n# Complete Project Analysis\n" ++ (getProjectStructure env).1 ++
     "\n\n# Task\nGenerate a professional, comprehensive README.md that includes:\n\n1. **Project Title and Description** - Clear explanation of what this project does\n2. **Installation Instructions** - How to set up and run the project\n3. **Usage Examples** - Basic usage or getting started guide\n4. **Project Structure** - Brief overview of main directories/files\n5. **Dependencies** - Key technologies and frameworks used\n6. **Contributing** - Basic contribution guidelines if applicable\n7. **License** - If license information is available\n\nMake sure the README accurately reflects the current state of the project based on the code and files you can see. Be specific about the technology stack and actual functionality you can identify from the code.\n\nGenerate the complete README.md content:\n            ")

/-- The body of the webhook `try` block of `part_003` (lines 178-319):
null-`head_commit` skip, the loop-prevention skip (`'[AI]'` or
`'AI README Bot'` in the message), the default-branch skip, the
`GITHUB_TOKEN` presence check (an early 500 response, not a throw), the
project-structure analysis, the prompt (`aiPromptOf`), then
`modelAndCommit`. -/
def webhookTry (env : Env) (parse : Except GhError PushData) :
    Except (GhError × List Call) (Response × List Call) :=
  match parse with
  | .error e => .error (e, [])
  | .ok pushData =>
    match pushData.head_commit with
    | none => .ok (.skipped "No head_commit found", [])
    | some head_commit =>
      let commitMsg := head_commit.message
      if strIncludes commitMsg "[AI]" || strIncludes commitMsg "AI README Bot" then
        .ok (.skipped "AI bot commit detected", [])
      else if pushData.ref != "refs/" ++ ("heads/" ++ pushData.repository.default_branch) then
        .ok (.skipped "Not default branch", [])
      else if !env.githubTokenPresent then
        .ok (.failure "GitHub token not configured" none, [])
      else
        modelAndCommit env pushData (aiPromptOf env pushData head_commit)
          (getProjectStructure env).2

/-- The webhook handler of `part_003`: the `catch` block (lines 320-333)
returns `{success:false, error:'Webhook processing failed', details}, 500`. -/
def handleWebhook (env : Env) (parse : Except GhError PushData) :
    Response × List Call :=
  match webhookTry env parse with
  | .ok r => r
  | .error (e, tr) => (.failure "Webhook processing failed" (some e.message), tr)

end Part003

/-! ### Trace lemmas for the per-file fetch loops -/

/-- The index.ts changed-files loop performs exactly one `getContent` call
per file, in order. -/
lemma indexTs_changedFilesLoop_trace (env : Env) (files : List String) :
    (IndexTs.changedFilesLoop env files).2 = files.map Call.getContent := by
  induction files with
  | nil => rfl
  | cons f rest ih =>
    simp only [IndexTs.changedFilesLoop]
    cases getFileContentVal env f with
    | some c =>
      by_cases hc : c != ""
      · simp [hc, ih]
      · simp [hc, ih]
    | none => simp [ih]

/-- The `part_002` changed-files loop performs exactly one `getContent`
call per file, in order. -/
lemma part002_changedFilesLoop_trace (env : Env) (files : List String) :
    (Part002.changedFilesLoop env files).2 = files.map Call.getContent := by
  induction files with
  | nil => rfl
  | cons f rest ih =>
    simp only [Part002.changedFilesLoop]
    cases getFileContentVal env f with
    | some c =>
      by_cases hc : c.length > 0
      · simp [hc, ih]
      · simp [hc, ih]
    | none => simp [ih]

/-- The index.ts `getRelevantChangedFiles` fetches exactly the first 10
relevant changed files. -/
lemma indexTs_getRelevantChangedFiles_trace (env : Env) (changedFiles : List String) :
    (IndexTs.getRelevantChangedFiles env changedFiles).2 =
      ((relevantFilesOf changedFiles).take 10).map Call.getContent := by
  unfold IndexTs.getRelevantChangedFiles
  exact indexTs_changedFilesLoop_trace env _

/-- The `part_002` fallback scan performs at most one `getContent` call
per key tree entry. -/
lemma part002_scanLoop_trace_length (env : Env) (items : List TreeItem) :
    (Part002.scanLoop env items).2.length ≤ items.length := by
  induction items with
  | nil => simp [Part002.scanLoop]
  | cons item rest ih =>
    simp only [Part002.scanLoop, List.length_cons]
    repeat' split
    all_goals (try simp only [List.length_cons])
    all_goals omega

/-- The `part_003` key-configuration loop performs at most one
`getContent` call per pattern. -/
lemma part003_keyFilesLoop_trace_length (env : Env) (files pats : List String) :
    (Part003.keyFilesLoop env files pats).2.length ≤ pats.length := by
  induction pats with
  | nil => simp [Part003.keyFilesLoop]
  | cons pat rest ih =>
    simp only [Part003.keyFilesLoop, List.length_cons]
    repeat' split
    all_goals (try simp only [List.length_cons])
    all_goals omega

/-- The `part_003` source-file loop performs exactly one `getContent`
call per file. -/
lemma part003_sourceFilesLoop_trace (env : Env) (files : List String) :
    (Part003.sourceFilesLoop env files).2 = files.map Call.getContent := by
  induction files with
  | nil => rfl
  | cons f rest ih =>
    simp only [Part003.sourceFilesLoop]
    cases getFileContentVal env f with
    | some c =>
      by_cases hc : c != ""
      · simp [hc, ih]
      · simp [hc, ih]
    | none => simp [ih]

/-- The whole `part_002` context aggregation makes at most 10 outbound
calls: 10 changed-file reads, or one tree listing plus at most 8 key-file
reads. -/
lemma part002_getProjectContext_trace_length (env : Env) (changedFiles : List String) :
    (Part002.getProjectContext env changedFiles).2.length ≤ 10 := by
  unfold Part002.getProjectContext
  cases h : ((relevantFilesOf changedFiles).length == 0) with
  | true =>
    simp only [h, if_true]
    cases env.getTree with
    | ok repoTree =>
      have h8 : ((repoTree.filter Part002.isKeyFile).take 8).length ≤ 8 := by
        simp [List.length_take]
      have := part002_scanLoop_trace_length env ((repoTree.filter Part002.isKeyFile).take 8)
      simp only [List.length_cons]
      omega
    | error e => simp
  | false =>
    simp only [h, Bool.false_eq_true, if_false]
    rw [part002_changedFilesLoop_trace]
    simp [List.length_take]

/-- The whole `part_003` structure analysis makes at most 27 outbound
calls: one tree listing, at most 16 key-configuration reads and at most 10
source-file reads. -/
lemma part003_getProjectStructure_trace_length (env : Env) :
    (Part003.getProjectStructure env).2.length ≤ 27 := by
  unfold Part003.getProjectStructure
  cases env.getTree with
  | error e => simp
  | ok repoTree =>
    have hk := part003_keyFilesLoop_trace_length env (Part003.treeFiles repoTree)
      Part003.keyFilePatterns
    have hs : (Part003.sourceFilesLoop env
        (((Part003.treeFiles repoTree).filter Part003.isSourceFile).take 10)).2.length ≤ 10 := by
      rw [part003_sourceFilesLoop_trace]
      simp [List.length_take]
    simp only [List.length_cons, List.length_append]
    have hk' : (Part003.keyFilesLoop env (Part003.treeFiles repoTree)
        Part003.keyFilePatterns).2.length ≤ 16 := by
      simpa [Part003.keyFilePatterns] using hk
    omega

/-- The branch ref the handlers compare against
(`refs/${defaultBranchRef}` with `defaultBranchRef = heads/${branch}`)
equals the flat concatenation `"refs/heads/" ++ branch`. -/
lemma refs_heads_assoc (branch : String) :
    "refs/" ++ ("heads/" ++ branch) = "refs/heads/" ++ branch := by
  apply String.ext
  simp [String.data_append, List.append_assoc]

/-! ### C8: totality of getFileContent -/

/-- C8.  `getFileContent` is total over all API outcomes: it never
propagates an exception (its result is always `Except.ok`), and its value
is the base64-decoded text exactly when the API call succeeded with a
`content` property — `none` when the call threw (404 or any other error)
or when the `content` property is absent. -/
theorem C8_getFileContent_total (env : Env) (path : String) :
    getFileContent env path =
      Except.ok ((env.getContent path).toOption.bind
        (fun fileData => fileData.content.map env.decodeBase64)) := by
  unfold getFileContent getFileContentTry
  cases env.getContent path with
  | ok fileData => cases h : fileData.content <;> simp [h, Except.toOption]
  | error e => simp [Except.toOption]

/-! ### C3: the relevance filter -/

/-- C3.  A changed file is kept by the relevance filter iff it occurs in
the input, ends with one of the relevant extensions, and contains none of
the exclude patterns; and the filter output is a sublist of the input
(the relative order is preserved). -/
theorem C3_relevance_filter (changedFiles : List String) (file : String) :
    (file ∈ relevantFilesOf changedFiles ↔
      file ∈ changedFiles ∧
      (relevantExtensions.any fun ext => strEndsWith file ext) = true ∧
      (excludePatterns.any fun pat => strIncludes file pat) = false) ∧
    (relevantFilesOf changedFiles).Sublist changedFiles := by
  constructor
  · simp only [relevantFilesOf, List.mem_filter, isRelevantFile,
      Bool.and_eq_true, Bool.not_eq_true']
  · exact List.filter_sublist _

/-- Concrete instance of C3: a TypeScript source file inside
`node_modules` is rejected, a plain source file is kept, order untouched. -/
theorem C3_relevance_filter_witness :
    (("src/index.ts" ∈ relevantFilesOf ["src/index.ts", "node_modules/x.ts", "logo.png"]) ↔
      "src/index.ts" ∈ ["src/index.ts", "node_modules/x.ts", "logo.png"] ∧
      (relevantExtensions.any fun ext => strEndsWith "src/index.ts" ext) = true ∧
      (excludePatterns.any fun pat => strIncludes "src/index.ts" pat) = false) ∧
    (relevantFilesOf ["src/index.ts", "node_modules/x.ts", "logo.png"]).Sublist
      ["src/index.ts", "node_modules/x.ts", "logo.png"] :=
  C3_relevance_filter ["src/index.ts", "node_modules/x.ts", "logo.png"] "src/index.ts"

/-! ### C5: bounded file fetching -/

/-- C5.  The set of files fetched for the prompt is bounded: index.ts
fetches exactly the first 10 relevant changed files (at most 10 calls);
the `part_002` fallback scan keeps at most the first 8 filtered tree
entries and its whole context aggregation makes at most 10 calls; the
`part_003` structure analysis reads at most the first 10 source files and
makes at most 27 outbound calls in total — all independently of how many
files the push payload lists. -/
theorem C5_bounded_fetching (env : Env) (changedFiles : List String)
    (tree : List TreeItem) :
    (IndexTs.getRelevantChangedFiles env changedFiles).2 =
      ((relevantFilesOf changedFiles).take 10).map Call.getContent ∧
    (IndexTs.getRelevantChangedFiles env changedFiles).2.length ≤ 10 ∧
    ((tree.filter Part002.isKeyFile).take 8).length ≤ 8 ∧
    (Part002.getProjectContext env changedFiles).2.length ≤ 10 ∧
    (((Part003.treeFiles tree).filter Part003.isSourceFile).take 10).length ≤ 10 ∧
    (Part003.getProjectStructure env).2.length ≤ 27 := by
  refine ⟨indexTs_getRelevantChangedFiles_trace env changedFiles, ?_, ?_, ?_, ?_, ?_⟩
  · rw [indexTs_getRelevantChangedFiles_trace]
    simp [List.length_take]
  · simp [List.length_take]
  · exact part002_getProjectContext_trace_length env changedFiles
  · simp [List.length_take]
  · exact part003_getProjectStructure_trace_length env

/-! ### Outcome projections for the try blocks -/

/-- The call trace of a try-block outcome (on a thrown error and on a
returned response alike). -/
def tryTrace : Except (GhError × List Call) (Response × List Call) → List Call
  | .ok (_, tr) => tr
  | .error (_, tr) => tr

/-- Whether a try-block outcome is a returned skip response. -/
def tryIsSkipped : Except (GhError × List Call) (Response × List Call) → Bool
  | .ok (r, _) => r.isSkipped
  | .error _ => false

lemma indexTs_handle_trace_eq (env : Env) (parse : Except GhError PushData) :
    (IndexTs.handleWebhook env parse).2 = tryTrace (IndexTs.webhookTry env parse) := by
  unfold IndexTs.handleWebhook
  cases h : IndexTs.webhookTry env parse with
  | ok r => cases r; rfl
  | error e => cases e; rfl

lemma indexTs_handle_skip_eq (env : Env) (parse : Except GhError PushData) :
    (IndexTs.handleWebhook env parse).1.isSkipped =
      tryIsSkipped (IndexTs.webhookTry env parse) := by
  unfold IndexTs.handleWebhook
  cases h : IndexTs.webhookTry env parse with
  | ok r => cases r; rfl
  | error e => cases e; rfl

lemma part002_handle_trace_eq (env : Env) (parse : Except GhError PushData) :
    (Part002.handleWebhook env parse).2 = tryTrace (Part002.webhookTry env parse) := by
  unfold Part002.handleWebhook
  cases h : Part002.webhookTry env parse with
  | ok r => cases r; rfl
  | error e => cases e; rfl

lemma part002_handle_skip_eq (env : Env) (parse : Except GhError PushData) :
    (Part002.handleWebhook env parse).1.isSkipped =
      tryIsSkipped (Part002.webhookTry env parse) := by
  unfold Part002.handleWebhook
  cases h : Part002.webhookTry env parse with
  | ok r => cases r; rfl
  | error e => cases e; rfl

lemma part003_handle_trace_eq (env : Env) (parse : Except GhError PushData) :
    (Part003.handleWebhook env parse).2 = tryTrace (Part003.webhookTry env parse) := by
  unfold Part003.handleWebhook
  cases h : Part003.webhookTry env parse with
  | ok r => cases r; rfl
  | error e => cases e; rfl

lemma part003_handle_skip_eq (env : Env) (parse : Except GhError PushData) :
    (Part003.handleWebhook env parse).1.isSkipped =
      tryIsSkipped (Part003.webhookTry env parse) := by
  unfold Part003.handleWebhook
  cases h : Part003.webhookTry env parse with
  | ok r => cases r; rfl
  | error e => cases e; rfl

/-! ### Shape of the commit step and of the model-to-commit tail -/

lemma indexTs_commitStep_shape (env : Env) (pd : PushData)
    (rc : Option String) (sha : Option String) (tr : List Call) :
    (tryTrace (IndexTs.commitStep env pd rc sha tr) = tr ∧
      tryIsSkipped (IndexTs.commitStep env pd rc sha tr) = false) ∨
    (∃ body branch,
      tryTrace (IndexTs.commitStep env pd rc sha tr) =
        tr ++ [Call.commit IndexTs.commitMessage body branch] ∧
      tryIsSkipped (IndexTs.commitStep env pd rc sha tr) = false) := by
  unfold IndexTs.commitStep
  cases rc with
  | none => exact Or.inl ⟨rfl, rfl⟩
  | some text =>
    cases h : env.createOrUpdateFileContents IndexTs.commitMessage
        (env.encodeBase64 text) sha pd.repository.default_branch with
    | error e =>
      refine Or.inr ⟨env.encodeBase64 text, pd.repository.default_branch, ?_, ?_⟩ <;>
        simp [tryTrace, tryIsSkipped, h]
    | ok d =>
      refine Or.inr ⟨env.encodeBase64 text, pd.repository.default_branch, ?_, ?_⟩ <;>
        simp [tryTrace, tryIsSkipped, h, Response.isSkipped]

lemma part002_commitStep_shape (env : Env) (pd : PushData)
    (text : String) (sha : Option String) (tr : List Call) :
    ∃ body branch,
      tryTrace (Part002.commitStep env pd text sha tr) =
        tr ++ [Call.commit Part002.commitMessage body branch] ∧
      tryIsSkipped (Part002.commitStep env pd text sha tr) = false := by
  unfold Part002.commitStep
  cases h : env.createOrUpdateFileContents Part002.commitMessage
      (env.encodeBase64 text) sha pd.repository.default_branch with
  | error e =>
    refine ⟨env.encodeBase64 text, pd.repository.default_branch, ?_, ?_⟩ <;>
      simp [tryTrace, tryIsSkipped, h]
  | ok d =>
    refine ⟨env.encodeBase64 text, pd.repository.default_branch, ?_, ?_⟩ <;>
      simp [tryTrace, tryIsSkipped, h, Response.isSkipped]

lemma part003_commitStep_shape (env : Env) (pd : PushData)
    (text : String) (sha : Option String) (tr : List Call) :
    ∃ body branch,
      tryTrace (Part003.commitStep env pd text sha tr) =
        tr ++ [Call.commit Part003.commitMessage body branch] ∧
      tryIsSkipped (Part003.commitStep env pd text sha tr) = false := by
  unfold Part003.commitStep
  cases h : env.createOrUpdateFileContents Part003.commitMessage
      (env.encodeBase64 text) sha pd.repository.default_branch with
  | error e =>
    refine ⟨env.encodeBase64 text, pd.repository.default_branch, ?_, ?_⟩ <;>
      simp [tryTrace, tryIsSkipped, h]
  | ok d =>
    refine ⟨env.encodeBase64 text, pd.repository.default_branch, ?_, ?_⟩ <;>
      simp [tryTrace, tryIsSkipped, h, Response.isSkipped]

lemma indexTs_mc_genError (env : Env) (pd : PushData) (c : String)
    (tr0 : List Call) (e : GhError) (hg : env.generate c = .error e) :
    IndexTs.modelAndCommit env pd c tr0 = .error (e, tr0 ++ [Call.generate c]) := by
  unfold IndexTs.modelAndCommit
  rw [hg]

lemma indexTs_mc_shaOk (env : Env) (pd : PushData) (c : String)
    (tr0 : List Call) (response : GenResponse) (fd : FileData)
    (hg : env.generate c = .ok response)
    (hr : env.getContent "README.md" = .ok fd) :
    IndexTs.modelAndCommit env pd c tr0 =
      IndexTs.commitStep env pd response.text fd.sha
        (tr0 ++ [Call.generate c, Call.getContent "README.md"]) := by
  unfold IndexTs.modelAndCommit
  rw [hg, hr]
  simp

lemma indexTs_mc_shaErr (env : Env) (pd : PushData) (c : String)
    (tr0 : List Call) (response : GenResponse) (e : GhError)
    (hg : env.generate c = .ok response)
    (hr : env.getContent "README.md" = .error e)
    (hs : (e.status != 404) = true) :
    IndexTs.modelAndCommit env pd c tr0 =
      .error (e, tr0 ++ [Call.generate c, Call.getContent "README.md"]) := by
  unfold IndexTs.modelAndCommit
  rw [hg, hr]
  simp [hs]

lemma indexTs_mc_sha404 (env : Env) (pd : PushData) (c : String)
    (tr0 : List Call) (response : GenResponse) (e : GhError)
    (hg : env.generate c = .ok response)
    (hr : env.getContent "README.md" = .error e)
    (hs : (e.status != 404) = false) :
    IndexTs.modelAndCommit env pd c tr0 =
      IndexTs.commitStep env pd response.text none
        (tr0 ++ [Call.generate c, Call.getContent "README.md"]) := by
  unfold IndexTs.modelAndCommit
  rw [hg, hr]
  simp [hs]

lemma indexTs_modelAndCommit_shape (env : Env) (pd : PushData)
    (c : String) (tr0 : List Call) :
    ∃ body branch,
      (tryIsSkipped (IndexTs.modelAndCommit env pd c tr0) = false) ∧
      (tryTrace (IndexTs.modelAndCommit env pd c tr0) = tr0 ++ [Call.generate c] ∨
       tryTrace (IndexTs.modelAndCommit env pd c tr0) =
         tr0 ++ [Call.generate c, Call.getContent "README.md"] ∨
       tryTrace (IndexTs.modelAndCommit env pd c tr0) =
         tr0 ++ [Call.generate c, Call.getContent "README.md",
           Call.commit IndexTs.commitMessage body branch]) := by
  cases hg : env.generate c with
  | error e =>
    rw [indexTs_mc_genError env pd c tr0 e hg]
    exact ⟨"", "", rfl, Or.inl rfl⟩
  | ok response =>
    cases hr : env.getContent "README.md" with
    | ok fd =>
      rw [indexTs_mc_shaOk env pd c tr0 response fd hg hr]
      rcases indexTs_commitStep_shape env pd response.text fd.sha
          (tr0 ++ [Call.generate c, Call.getContent "README.md"]) with
        ⟨h1, h2⟩ | ⟨body, branch, h1, h2⟩
      · exact ⟨"", "", h2, Or.inr (Or.inl h1)⟩
      · refine ⟨body, branch, h2, Or.inr (Or.inr ?_)⟩
        rw [h1]
        simp
    | error e =>
      cases hs : (e.status != 404) with
      | true =>
        rw [indexTs_mc_shaErr env pd c tr0 response e hg hr hs]
        exact ⟨"", "", rfl, Or.inr (Or.inl rfl)⟩
      | false =>
        rw [indexTs_mc_sha404 env pd c tr0 response e hg hr hs]
        rcases indexTs_commitStep_shape env pd response.text none
            (tr0 ++ [Call.generate c, Call.getContent "README.md"]) with
          ⟨h1, h2⟩ | ⟨body, branch, h1, h2⟩
        · exact ⟨"", "", h2, Or.inr (Or.inl h1)⟩
        · refine ⟨body, branch, h2, Or.inr (Or.inr ?_)⟩
          rw [h1]
          simp

lemma part002_mc_genError (env : Env) (pd : PushData) (c : String)
    (tr0 : List Call) (e : GhError) (hg : env.generate c = .error e) :
    Part002.modelAndCommit env pd c tr0 = .error (e, tr0 ++ [Call.generate c]) := by
  unfold Part002.modelAndCommit
  rw [hg]

lemma part002_mc_textNone (env : Env) (pd : PushData) (c : String)
    (tr0 : List Call) (response : GenResponse)
    (hg : env.generate c = .ok response) (ht : response.text = none) :
    Part002.modelAndCommit env pd c tr0 =
      .ok (.failure "Generated README too short" none, tr0 ++ [Call.generate c]) := by
  unfold Part002.modelAndCommit
  rw [hg]
  simp [ht]

lemma part002_mc_textShort (env : Env) (pd : PushData) (c : String)
    (tr0 : List Call) (response : GenResponse) (t : String)
    (hg : env.generate c = .ok response) (ht : response.text = some t)
    (hlen : t.length < 50) :
    Part002.modelAndCommit env pd c tr0 =
      .ok (.failure "Generated README too short" none, tr0 ++ [Call.generate c]) := by
  unfold Part002.modelAndCommit
  rw [hg]
  simp [ht, hlen]

lemma part002_mc_long_shaOk (env : Env) (pd : PushData) (c : String)
    (tr0 : List Call) (response : GenResponse) (t : String) (fd : FileData)
    (hg : env.generate c = .ok response) (ht : response.text = some t)
    (hlen : ¬ t.length < 50)
    (hr : env.getContent "README.md" = .ok fd) :
    Part002.modelAndCommit env pd c tr0 =
      Part002.commitStep env pd t fd.sha
        (tr0 ++ [Call.generate c, Call.getContent "README.md"]) := by
  unfold Part002.modelAndCommit
  rw [hg]
  simp [ht, hlen, hr]

lemma part002_mc_long_shaErr (env : Env) (pd : PushData) (c : String)
    (tr0 : List Call) (response : GenResponse) (t : String) (e : GhError)
    (hg : env.generate c = .ok response) (ht : response.text = some t)
    (hlen : ¬ t.length < 50)
    (hr : env.getContent "README.md" = .error e)
    (hs : (e.status != 404) = true) :
    Part002.modelAndCommit env pd c tr0 =
      .error (e, tr0 ++ [Call.generate c, Call.getContent "README.md"]) := by
  unfold Part002.modelAndCommit
  rw [hg]
  simp [ht, hlen, hr, hs]

lemma part002_mc_long_sha404 (env : Env) (pd : PushData) (c : String)
    (tr0 : List Call) (response : GenResponse) (t : String) (e : GhError)
    (hg : env.generate c = .ok response) (ht : response.text = some t)
    (hlen : ¬ t.length < 50)
    (hr : env.getContent "README.md" = .error e)
    (hs : (e.status != 404) = false) :
    Part002.modelAndCommit env pd c tr0 =
      Part002.commitStep env pd t none
        (tr0 ++ [Call.generate c, Call.getContent "README.md"]) := by
  unfold Part002.modelAndCommit
  rw [hg]
  simp [ht, hlen, hr, hs]

lemma part003_mc_genError (env : Env) (pd : PushData) (c : String)
    (tr0 : List Call) (e : GhError) (hg : env.generate c = .error e) :
    Part003.modelAndCommit env pd c tr0 = .error (e, tr0 ++ [Call.generate c]) := by
  unfold Part003.modelAndCommit
  rw [hg]

lemma part003_mc_textNone (env : Env) (pd : PushData) (c : String)
    (tr0 : List Call) (response : GenResponse)
    (hg : env.generate c = .ok response) (ht : response.text = none) :
    Part003.modelAndCommit env pd c tr0 =
      .ok (.failure "Generated README too short or empty" none,
        tr0 ++ [Call.generate c]) := by
  unfold Part003.modelAndCommit
  rw [hg]
  simp [ht]

lemma part003_mc_textShort (env : Env) (pd : PushData) (c : String)
    (tr0 : List Call) (response : GenResponse) (t : String)
    (hg : env.generate c = .ok response) (ht : response.text = some t)
    (hlen : t.length < 100) :
    Part003.modelAndCommit env pd c tr0 =
      .ok (.failure "Generated README too short or empty" none,
        tr0 ++ [Call.generate c]) := by
  unfold Part003.modelAndCommit
  rw [hg]
  simp [ht, hlen]

lemma part003_mc_long_shaOk (env : Env) (pd : PushData) (c : String)
    (tr0 : List Call) (response : GenResponse) (t : String) (fd : FileData)
    (hg : env.generate c = .ok response) (ht : response.text = some t)
    (hlen : ¬ t.length < 100)
    (hr : env.getContent "README.md" = .ok fd) :
    Part003.modelAndCommit env pd c tr0 =
      Part003.commitStep env pd t fd.sha
        (tr0 ++ [Call.generate c, Call.getContent "README.md"]) := by
  unfold Part003.modelAndCommit
  rw [hg]
  simp [ht, hlen, hr]

lemma part003_mc_long_sha404 (env : Env) (pd : PushData) (c : String)
    (tr0 : List Call) (response : GenResponse) (t : String) (e : GhError)
    (hg : env.generate c = .ok response) (ht : response.text = some t)
    (hlen : ¬ t.length < 100)
    (hr : env.getContent "README.md" = .error e)
    (hs : (e.status == 404) = true) :
    Part003.modelAndCommit env pd c tr0 =
      Part003.commitStep env pd t none
        (tr0 ++ [Call.generate c, Call.getContent "README.md"]) := by
  unfold Part003.modelAndCommit
  rw [hg]
  simp [ht, hlen, hr, hs]

lemma part003_mc_long_shaErr (env : Env) (pd : PushData) (c : String)
    (tr0 : List Call) (response : GenResponse) (t : String) (e : GhError)
    (hg : env.generate c = .ok response) (ht : response.text = some t)
    (hlen : ¬ t.length < 100)
    (hr : env.getContent "README.md" = .error e)
    (hs : (e.status == 404) = false) :
    Part003.modelAndCommit env pd c tr0 =
      .error (e, tr0 ++ [Call.generate c, Call.getContent "README.md"]) := by
  unfold Part003.modelAndCommit
  rw [hg]
  simp [ht, hlen, hr, hs]

lemma part002_modelAndCommit_shape (env : Env) (pd : PushData)
    (c : String) (tr0 : List Call) :
    ∃ body branch,
      (tryIsSkipped (Part002.modelAndCommit env pd c tr0) = false) ∧
      (tryTrace (Part002.modelAndCommit env pd c tr0) = tr0 ++ [Call.generate c] ∨
       tryTrace (Part002.modelAndCommit env pd c tr0) =
         tr0 ++ [Call.generate c, Call.getContent "README.md"] ∨
       tryTrace (Part002.modelAndCommit env pd c tr0) =
         tr0 ++ [Call.generate c, Call.getContent "README.md",
           Call.commit Part002.commitMessage body branch]) := by
  cases hg : env.generate c with
  | error e =>
    rw [part002_mc_genError env pd c tr0 e hg]
    exact ⟨"", "", rfl, Or.inl rfl⟩
  | ok response =>
    cases ht : response.text with
    | none =>
      rw [part002_mc_textNone env pd c tr0 response hg ht]
      exact ⟨"", "", rfl, Or.inl rfl⟩
    | some t =>
      by_cases hlen : t.length < 50
      · rw [part002_mc_textShort env pd c tr0 response t hg ht hlen]
        exact ⟨"", "", rfl, Or.inl rfl⟩
      · cases hr : env.getContent "README.md" with
        | ok fd =>
          rw [part002_mc_long_shaOk env pd c tr0 response t fd hg ht hlen hr]
          obtain ⟨body, branch, h1, h2⟩ := part002_commitStep_shape env pd t fd.sha
            (tr0 ++ [Call.generate c, Call.getContent "README.md"])
          refine ⟨body, branch, h2, Or.inr (Or.inr ?_)⟩
          rw [h1]
          simp
        | error e =>
          cases hs : (e.status != 404) with
          | true =>
            rw [part002_mc_long_shaErr env pd c tr0 response t e hg ht hlen hr hs]
            exact ⟨"", "", rfl, Or.inr (Or.inl rfl)⟩
          | false =>
            rw [part002_mc_long_sha404 env pd c tr0 response t e hg ht hlen hr hs]
            obtain ⟨body, branch, h1, h2⟩ := part002_commitStep_shape env pd t none
              (tr0 ++ [Call.generate c, Call.getContent "README.md"])
            refine ⟨body, branch, h2, Or.inr (Or.inr ?_)⟩
            rw [h1]
            simp

lemma part003_modelAndCommit_shape (env : Env) (pd : PushData)
    (c : String) (tr0 : List Call) :
    ∃ body branch,
      (tryIsSkipped (Part003.modelAndCommit env pd c tr0) = false) ∧
      (tryTrace (Part003.modelAndCommit env pd c tr0) = tr0 ++ [Call.generate c] ∨
       tryTrace (Part003.modelAndCommit env pd c tr0) =
         tr0 ++ [Call.generate c, Call.getContent "README.md"] ∨
       tryTrace (Part003.modelAndCommit env pd c tr0) =
         tr0 ++ [Call.generate c, Call.getContent "README.md",
           Call.commit Part003.commitMessage body branch]) := by
  cases hg : env.generate c with
  | error e =>
    rw [part003_mc_genError env pd c tr0 e hg]
    exact ⟨"", "", rfl, Or.inl rfl⟩
  | ok response =>
    cases ht : response.text with
    | none =>
      rw [part003_mc_textNone env pd c tr0 response hg ht]
      exact ⟨"", "", rfl, Or.inl rfl⟩
    | some t =>
      by_cases hlen : t.length < 100
      · rw [part003_mc_textShort env pd c tr0 response t hg ht hlen]
        exact ⟨"", "", rfl, Or.inl rfl⟩
      · cases hr : env.getContent "README.md" with
        | ok fd =>
          rw [part003_mc_long_shaOk env pd c tr0 response t fd hg ht hlen hr]
          obtain ⟨body, branch, h1, h2⟩ := part003_commitStep_shape env pd t fd.sha
            (tr0 ++ [Call.generate c, Call.getContent "README.md"])
          refine ⟨body, branch, h2, Or.inr (Or.inr ?_)⟩
          rw [h1]
          simp
        | error e =>
          cases hs : (e.status == 404) with
          | true =>
            rw [part003_mc_long_sha404 env pd c tr0 response t e hg ht hlen hr hs]
            obtain ⟨body, branch, h1, h2⟩ := part003_commitStep_shape env pd t none
              (tr0 ++ [Call.generate c, Call.getContent "README.md"])
            refine ⟨body, branch, h2, Or.inr (Or.inr ?_)⟩
            rw [h1]
            simp
          | false =>
            rw [part003_mc_long_shaErr env pd c tr0 response t e hg ht hlen hr hs]
            exact ⟨"", "", rfl, Or.inr (Or.inl rfl)⟩

/-! ### Classification of the calls made before the model call -/

lemma map_getContent_countP_gen (l : List String) :
    (l.map Call.getContent).countP Call.isGenerate = 0 := by
  induction l with
  | nil => rfl
  | cons a rest ih => simp [List.countP_cons, Call.isGenerate, ih]

lemma map_getContent_countP_commit (l : List String) :
    (l.map Call.getContent).countP Call.isCommit = 0 := by
  induction l with
  | nil => rfl
  | cons a rest ih => simp [List.countP_cons, Call.isCommit, ih]

lemma take_map_getContent_countP_gen (l : List String) (n : Nat) :
    ((l.map Call.getContent).take n).countP Call.isGenerate = 0 := by
  have h := (List.take_sublist n (l.map Call.getContent)).countP_le Call.isGenerate
  have h0 := map_getContent_countP_gen l
  omega

lemma take_map_getContent_countP_commit (l : List String) (n : Nat) :
    ((l.map Call.getContent).take n).countP Call.isCommit = 0 := by
  have h := (List.take_sublist n (l.map Call.getContent)).countP_le Call.isCommit
  have h0 := map_getContent_countP_commit l
  omega

lemma indexTs_contextTrace_countGen (env : Env) (hc : HeadCommit) :
    (IndexTs.contextTraceOf env hc).countP Call.isGenerate = 0 := by
  unfold IndexTs.contextTraceOf
  rw [indexTs_getRelevantChangedFiles_trace]
  simp [List.countP_cons, Call.isGenerate, map_getContent_countP_gen,
    take_map_getContent_countP_gen]

lemma indexTs_contextTrace_countCommit (env : Env) (hc : HeadCommit) :
    (IndexTs.contextTraceOf env hc).countP Call.isCommit = 0 := by
  unfold IndexTs.contextTraceOf
  rw [indexTs_getRelevantChangedFiles_trace]
  simp [List.countP_cons, Call.isCommit, map_getContent_countP_commit,
    take_map_getContent_countP_commit]

lemma part003_keyFilesLoop_calls (env : Env) (files pats : List String) :
    ∃ (l : List String),
      (Part003.keyFilesLoop env files pats).2 = l.map Call.getContent := by
  induction pats with
  | nil => exact ⟨[], rfl⟩
  | cons pat rest ih =>
    obtain ⟨l, hl⟩ := ih
    simp only [Part003.keyFilesLoop]
    cases hf : files.find? (fun f => f == pat || strEndsWith f ("/" ++ pat)) with
    | none => exact ⟨l, hl⟩
    | some foundFile =>
      cases hv : getFileContentVal env foundFile with
      | some content =>
        cases hcne : (content != "") with
        | true => exact ⟨foundFile :: l, by simp [hv, hcne, hl]⟩
        | false => exact ⟨foundFile :: l, by simp [hv, hcne, hl]⟩
      | none => exact ⟨foundFile :: l, by simp [hv, hl]⟩

lemma part003_structure_calls (env : Env) :
    ∃ (l : List String), (Part003.getProjectStructure env).2 =
      Call.getTree :: l.map Call.getContent := by
  unfold Part003.getProjectStructure
  cases ht : env.getTree with
  | error e => exact ⟨[], rfl⟩
  | ok tree =>
    obtain ⟨l1, h1⟩ := part003_keyFilesLoop_calls env (Part003.treeFiles tree)
      Part003.keyFilePatterns
    refine ⟨l1 ++ ((Part003.treeFiles tree).filter Part003.isSourceFile).take 10, ?_⟩
    simp [h1, part003_sourceFilesLoop_trace, List.map_append]

lemma part003_structure_countGen (env : Env) :
    (Part003.getProjectStructure env).2.countP Call.isGenerate = 0 := by
  obtain ⟨l, hl⟩ := part003_structure_calls env
  rw [hl]
  simp [List.countP_cons, Call.isGenerate, map_getContent_countP_gen]

lemma part003_structure_countCommit (env : Env) :
    (Part003.getProjectStructure env).2.countP Call.isCommit = 0 := by
  obtain ⟨l, hl⟩ := part003_structure_calls env
  rw [hl]
  simp [List.countP_cons, Call.isCommit, map_getContent_countP_commit]

/-! ### Equations for the try blocks -/

lemma indexTs_try_noHead (env : Env) (pd : PushData)
    (hhc : pd.head_commit = none) :
    IndexTs.webhookTry env (.ok pd) = .ok (.skipped "No head_commit found", []) := by
  simp [IndexTs.webhookTry, hhc]

lemma indexTs_try_ai (env : Env) (pd : PushData) (hc : HeadCommit)
    (hhc : pd.head_commit = some hc)
    (hai : strIncludes hc.message "[AI]" = true) :
    IndexTs.webhookTry env (.ok pd) = .ok (.skipped "AI commit", []) := by
  simp [IndexTs.webhookTry, hhc, hai]

lemma indexTs_try_branch (env : Env) (pd : PushData) (hc : HeadCommit)
    (hhc : pd.head_commit = some hc)
    (hai : strIncludes hc.message "[AI]" = false)
    (hbr : (pd.ref != "refs/" ++ ("heads/" ++ pd.repository.default_branch)) = true) :
    IndexTs.webhookTry env (.ok pd) = .ok (.skipped "Not default branch", []) := by
  simp [IndexTs.webhookTry, hhc, hai, hbr]

lemma indexTs_try_proceed (env : Env) (pd : PushData) (hc : HeadCommit)
    (hhc : pd.head_commit = some hc)
    (hai : strIncludes hc.message "[AI]" = false)
    (hbr : (pd.ref != "refs/" ++ ("heads/" ++ pd.repository.default_branch)) = false) :
    IndexTs.webhookTry env (.ok pd) =
      IndexTs.modelAndCommit env pd (IndexTs.contentToAnalyzeOf env pd hc)
        (IndexTs.contextTraceOf env hc) := by
  simp [IndexTs.webhookTry, hhc, hai, hbr]

lemma part002_try_noHead (env : Env) (pd : PushData)
    (hhc : pd.head_commit = none) :
    Part002.webhookTry env (.ok pd) = .ok (.skipped "No head_commit found", []) := by
  simp [Part002.webhookTry, hhc]

lemma part002_try_branch (env : Env) (pd : PushData) (hc : HeadCommit)
    (hhc : pd.head_commit = some hc)
    (hbr : (pd.ref != "refs/" ++ ("heads/" ++ pd.repository.default_branch)) = true) :
    Part002.webhookTry env (.ok pd) = .ok (.skipped "Not default branch", []) := by
  simp [Part002.webhookTry, hhc, hbr]

lemma part002_try_proceed (env : Env) (pd : PushData) (hc : HeadCommit)
    (hhc : pd.head_commit = some hc)
    (hbr : (pd.ref != "refs/" ++ ("heads/" ++ pd.repository.default_branch)) = false) :
    Part002.webhookTry env (.ok pd) =
      Part002.modelAndCommit env pd (Part002.aiPromptOf env pd hc)
        (Part002.contextTraceOf env hc) := by
  simp [Part002.webhookTry, hhc, hbr]

lemma part003_try_noHead (env : Env) (pd : PushData)
    (hhc : pd.head_commit = none) :
    Part003.webhookTry env (.ok pd) = .ok (.skipped "No head_commit found", []) := by
  simp [Part003.webhookTry, hhc]

lemma part003_try_ai (env : Env) (pd : PushData) (hc : HeadCommit)
    (hhc : pd.head_commit = some hc)
    (hai : (strIncludes hc.message "[AI]" ||
      strIncludes hc.message "AI README Bot") = true) :
    Part003.webhookTry env (.ok pd) =
      .ok (.skipped "AI bot commit detected", []) := by
  simp only [Part003.webhookTry, hhc]
  simp [hai]

lemma part003_try_branch (env : Env) (pd : PushData) (hc : HeadCommit)
    (hhc : pd.head_commit = some hc)
    (hai1 : strIncludes hc.message "[AI]" = false)
    (hai2 : strIncludes hc.message "AI README Bot" = false)
    (hbr : (pd.ref != "refs/" ++ ("heads/" ++ pd.repository.default_branch)) = true) :
    Part003.webhookTry env (.ok pd) = .ok (.skipped "Not default branch", []) := by
  simp [Part003.webhookTry, hhc, hai1, hai2, hbr]

lemma part003_try_noToken (env : Env) (pd : PushData) (hc : HeadCommit)
    (hhc : pd.head_commit = some hc)
    (hai1 : strIncludes hc.message "[AI]" = false)
    (hai2 : strIncludes hc.message "AI README Bot" = false)
    (hbr : (pd.ref != "refs/" ++ ("heads/" ++ pd.repository.default_branch)) = false)
    (htok : env.githubTokenPresent = false) :
    Part003.webhookTry env (.ok pd) =
      .ok (.failure "GitHub token not configured" none, []) := by
  simp [Part003.webhookTry, hhc, hai1, hai2, hbr, htok]

lemma part003_try_proceed (env : Env) (pd : PushData) (hc : HeadCommit)
    (hhc : pd.head_commit = some hc)
    (hai1 : strIncludes hc.message "[AI]" = false)
    (hai2 : strIncludes hc.message "AI README Bot" = false)
    (hbr : (pd.ref != "refs/" ++ ("heads/" ++ pd.repository.default_branch)) = false)
    (htok : env.githubTokenPresent = true) :
    Part003.webhookTry env (.ok pd) =
      Part003.modelAndCommit env pd (Part003.aiPromptOf env pd hc)
        (Part003.getProjectStructure env).2 := by
  simp [Part003.webhookTry, hhc, hai1, hai2, hbr, htok]

/-! ### Trace shapes of the whole try blocks -/

lemma indexTs_try_shape (env : Env) (parse : Except GhError PushData) :
    ∃ (tr0 : List Call) (prompt body branch : String),
      tr0.countP Call.isGenerate = 0 ∧
      tr0.countP Call.isCommit = 0 ∧
      (tryIsSkipped (IndexTs.webhookTry env parse) = true →
        tryTrace (IndexTs.webhookTry env parse) = []) ∧
      (tryTrace (IndexTs.webhookTry env parse) = [] ∨
       tryTrace (IndexTs.webhookTry env parse) = tr0 ++ [Call.generate prompt] ∨
       tryTrace (IndexTs.webhookTry env parse) =
         tr0 ++ [Call.generate prompt, Call.getContent "README.md"] ∨
       tryTrace (IndexTs.webhookTry env parse) =
         tr0 ++ [Call.generate prompt, Call.getContent "README.md",
           Call.commit IndexTs.commitMessage body branch]) := by
  cases parse with
  | error e => exact ⟨[], "", "", "", rfl, rfl, fun _ => rfl, Or.inl rfl⟩
  | ok pd =>
    cases hhc : pd.head_commit with
    | none =>
      rw [indexTs_try_noHead env pd hhc]
      exact ⟨[], "", "", "", rfl, rfl, fun _ => rfl, Or.inl rfl⟩
    | some hc =>
      cases hai : strIncludes hc.message "[AI]" with
      | true =>
        rw [indexTs_try_ai env pd hc hhc hai]
        exact ⟨[], "", "", "", rfl, rfl, fun _ => rfl, Or.inl rfl⟩
      | false =>
        cases hbr : (pd.ref != "refs/" ++ ("heads/" ++ pd.repository.default_branch)) with
        | true =>
          rw [indexTs_try_branch env pd hc hhc hai hbr]
          exact ⟨[], "", "", "", rfl, rfl, fun _ => rfl, Or.inl rfl⟩
        | false =>
          rw [indexTs_try_proceed env pd hc hhc hai hbr]
          obtain ⟨body, branch, hskip, hsh⟩ :=
            indexTs_modelAndCommit_shape env pd
              (IndexTs.contentToAnalyzeOf env pd hc) (IndexTs.contextTraceOf env hc)
          refine ⟨IndexTs.contextTraceOf env hc,
            IndexTs.contentToAnalyzeOf env pd hc, body, branch,
            indexTs_contextTrace_countGen env hc,
            indexTs_contextTrace_countCommit env hc, ?_, ?_⟩
          · intro h
            rw [hskip] at h
            cases h
          · rcases hsh with h | h | h
            · exact Or.inr (Or.inl h)
            · exact Or.inr (Or.inr (Or.inl h))
            · exact Or.inr (Or.inr (Or.inr h))

lemma part003_try_shape (env : Env) (parse : Except GhError PushData) :
    ∃ (tr0 : List Call) (prompt body branch : String),
      tr0.countP Call.isGenerate = 0 ∧
      tr0.countP Call.isCommit = 0 ∧
      (tryIsSkipped (Part003.webhookTry env parse) = true →
        tryTrace (Part003.webhookTry env parse) = []) ∧
      (tryTrace (Part003.webhookTry env parse) = [] ∨
       tryTrace (Part003.webhookTry env parse) = tr0 ++ [Call.generate prompt] ∨
       tryTrace (Part003.webhookTry env parse) =
         tr0 ++ [Call.generate prompt, Call.getContent "README.md"] ∨
       tryTrace (Part003.webhookTry env parse) =
         tr0 ++ [Call.generate prompt, Call.getContent "README.md",
           Call.commit Part003.commitMessage body branch]) := by
  cases parse with
  | error e => exact ⟨[], "", "", "", rfl, rfl, fun _ => rfl, Or.inl rfl⟩
  | ok pd =>
    cases hhc : pd.head_commit with
    | none =>
      rw [part003_try_noHead env pd hhc]
      exact ⟨[], "", "", "", rfl, rfl, fun _ => rfl, Or.inl rfl⟩
    | some hc =>
      cases hai1 : strIncludes hc.message "[AI]" with
      | true =>
        rw [part003_try_ai env pd hc hhc (by simp [hai1])]
        exact ⟨[], "", "", "", rfl, rfl, fun _ => rfl, Or.inl rfl⟩
      | false =>
        cases hai2 : strIncludes hc.message "AI README Bot" with
        | true =>
          rw [part003_try_ai env pd hc hhc (by simp [hai2])]
          exact ⟨[], "", "", "", rfl, rfl, fun _ => rfl, Or.inl rfl⟩
        | false =>
          cases hbr : (pd.ref != "refs/" ++ ("heads/" ++ pd.repository.default_branch)) with
          | true =>
            rw [part003_try_branch env pd hc hhc hai1 hai2 hbr]
            exact ⟨[], "", "", "", rfl, rfl, fun _ => rfl, Or.inl rfl⟩
          | false =>
            cases htok : env.githubTokenPresent with
            | false =>
              rw [part003_try_noToken env pd hc hhc hai1 hai2 hbr htok]
              exact ⟨[], "", "", "", rfl, rfl, fun _ => rfl, Or.inl rfl⟩
            | true =>
              rw [part003_try_proceed env pd hc hhc hai1 hai2 hbr htok]
              obtain ⟨body, branch, hskip, hsh⟩ :=
                part003_modelAndCommit_shape env pd
                  (Part003.aiPromptOf env pd hc) (Part003.getProjectStructure env).2
              refine ⟨(Part003.getProjectStructure env).2,
                Part003.aiPromptOf env pd hc, body, branch,
                part003_structure_countGen env,
                part003_structure_countCommit env, ?_, ?_⟩
              · intro h
                rw [hskip] at h
                cases h
              · rcases hsh with h | h | h
                · exact Or.inr (Or.inl h)
                · exact Or.inr (Or.inr (Or.inl h))
                · exact Or.inr (Or.inr (Or.inr h))

/-- Generic consequences of a linear trace shape: at most one model call,
at most one commit call, every commit call carries the fixed commit
message and is preceded by a model call. -/
lemma trace_props_of_shape (tr tr0 : List Call)
    (prompt body branch msgC : String)
    (h0g : tr0.countP Call.isGenerate = 0)
    (h0c : tr0.countP Call.isCommit = 0)
    (hsh : tr = [] ∨ tr = tr0 ++ [Call.generate prompt] ∨
           tr = tr0 ++ [Call.generate prompt, Call.getContent "README.md"] ∨
           tr = tr0 ++ [Call.generate prompt, Call.getContent "README.md",
             Call.commit msgC body branch]) :
    tr.countP Call.isGenerate ≤ 1 ∧
    tr.countP Call.isCommit ≤ 1 ∧
    (∀ m b br, Call.commit m b br ∈ tr →
      m = msgC ∧
      ∃ pre post, tr = pre ++ Call.commit m b br :: post ∧
        ∃ p, Call.generate p ∈ pre) := by
  rcases hsh with h | h | h | h <;> subst h
  · refine ⟨by simp, by simp, ?_⟩
    intro m b br hm
    simp at hm
  · refine ⟨?_, ?_, ?_⟩
    · simp [List.countP_append, List.countP_cons, h0g, Call.isGenerate]
    · simp [List.countP_append, List.countP_cons, h0c, Call.isCommit]
    · intro m b br hm
      rcases List.mem_append.1 hm with h1 | h2
      · have := List.countP_eq_zero.1 h0c _ h1
        exact absurd rfl this
      · simp at h2
  · refine ⟨?_, ?_, ?_⟩
    · simp [List.countP_append, List.countP_cons, h0g, Call.isGenerate]
    · simp [List.countP_append, List.countP_cons, h0c, Call.isCommit]
    · intro m b br hm
      rcases List.mem_append.1 hm with h1 | h2
      · have := List.countP_eq_zero.1 h0c _ h1
        exact absurd rfl this
      · simp at h2
  · refine ⟨?_, ?_, ?_⟩
    · simp [List.countP_append, List.countP_cons, h0g, Call.isGenerate, Call.isCommit]
    · simp [List.countP_append, List.countP_cons, h0c, Call.isGenerate, Call.isCommit]
    · intro m b br hm
      rcases List.mem_append.1 hm with h1 | h2
      · have := List.countP_eq_zero.1 h0c _ h1
        exact absurd rfl this
      · simp only [List.mem_cons, List.mem_singleton] at h2
        rcases h2 with h2 | h2 | h2 | h2
        · cases h2
        · cases h2
        · injection h2 with hm1 hb1 hbr1
          subst hm1
          subst hb1
          subst hbr1
          refine ⟨rfl, tr0 ++ [Call.generate prompt, Call.getContent "README.md"],
            [], ?_, prompt, ?_⟩
          · simp
          · simp
        · cases h2

lemma indexTs_handle_props (env : Env) (parse : Except GhError PushData) :
    ((IndexTs.handleWebhook env parse).1.isSkipped = true →
      (IndexTs.handleWebhook env parse).2 = []) ∧
    (IndexTs.handleWebhook env parse).2.countP Call.isGenerate ≤ 1 ∧
    (IndexTs.handleWebhook env parse).2.countP Call.isCommit ≤ 1 ∧
    (∀ m b br, Call.commit m b br ∈ (IndexTs.handleWebhook env parse).2 →
      m = IndexTs.commitMessage ∧
      ∃ pre post, (IndexTs.handleWebhook env parse).2 =
        pre ++ Call.commit m b br :: post ∧ ∃ p, Call.generate p ∈ pre) := by
  obtain ⟨tr0, prompt, body, branch, h0g, h0c, hskip, hsh⟩ :=
    indexTs_try_shape env parse
  rw [indexTs_handle_trace_eq, indexTs_handle_skip_eq]
  have hp := trace_props_of_shape _ tr0 prompt body branch
    IndexTs.commitMessage h0g h0c hsh
  exact ⟨hskip, hp.1, hp.2.1, hp.2.2⟩

lemma part003_handle_props (env : Env) (parse : Except GhError PushData) :
    ((Part003.handleWebhook env parse).1.isSkipped = true →
      (Part003.handleWebhook env parse).2 = []) ∧
    (Part003.handleWebhook env parse).2.countP Call.isGenerate ≤ 1 ∧
    (Part003.handleWebhook env parse).2.countP Call.isCommit ≤ 1 ∧
    (∀ m b br, Call.commit m b br ∈ (Part003.handleWebhook env parse).2 →
      m = Part003.commitMessage ∧
      ∃ pre post, (Part003.handleWebhook env parse).2 =
        pre ++ Call.commit m b br :: post ∧ ∃ p, Call.generate p ∈ pre) := by
  obtain ⟨tr0, prompt, body, branch, h0g, h0c, hskip, hsh⟩ :=
    part003_try_shape env parse
  rw [part003_handle_trace_eq, part003_handle_skip_eq]
  have hp := trace_props_of_shape _ tr0 prompt body branch
    Part003.commitMessage h0g h0c hsh
  exact ⟨hskip, hp.1, hp.2.1, hp.2.2⟩

/-! ### Early-exit lemmas for the three handlers -/

lemma indexTs_skip_noHead (env : Env) (pd : PushData)
    (h : pd.head_commit = none) :
    IndexTs.handleWebhook env (.ok pd) = (.skipped "No head_commit found", []) := by
  simp [IndexTs.handleWebhook, IndexTs.webhookTry, h]

lemma part002_skip_noHead (env : Env) (pd : PushData)
    (h : pd.head_commit = none) :
    Part002.handleWebhook env (.ok pd) = (.skipped "No head_commit found", []) := by
  simp [Part002.handleWebhook, Part002.webhookTry, h]

lemma part003_skip_noHead (env : Env) (pd : PushData)
    (h : pd.head_commit = none) :
    Part003.handleWebhook env (.ok pd) = (.skipped "No head_commit found", []) := by
  simp [Part003.handleWebhook, Part003.webhookTry, h]

lemma indexTs_skip_ai (env : Env) (pd : PushData) (hc : HeadCommit)
    (hhc : pd.head_commit = some hc)
    (hai : strIncludes hc.message "[AI]" = true) :
    IndexTs.handleWebhook env (.ok pd) = (.skipped "AI commit", []) := by
  simp [IndexTs.handleWebhook, IndexTs.webhookTry, hhc, hai]

lemma part003_skip_ai (env : Env) (pd : PushData) (hc : HeadCommit)
    (hhc : pd.head_commit = some hc)
    (hai : strIncludes hc.message "[AI]" = true) :
    Part003.handleWebhook env (.ok pd) = (.skipped "AI bot commit detected", []) := by
  simp [Part003.handleWebhook, Part003.webhookTry, hhc, hai]

lemma indexTs_skip_branch (env : Env) (pd : PushData) (hc : HeadCommit)
    (hhc : pd.head_commit = some hc)
    (hai : strIncludes hc.message "[AI]" = false)
    (hbr : pd.ref ≠ "refs/heads/" ++ pd.repository.default_branch) :
    IndexTs.handleWebhook env (.ok pd) = (.skipped "Not default branch", []) := by
  have hbr' : (pd.ref != "refs/" ++ ("heads/" ++ pd.repository.default_branch)) = true := by
    rw [refs_heads_assoc]
    simpa using hbr
  simp [IndexTs.handleWebhook, IndexTs.webhookTry, hhc, hai, hbr']

lemma part002_skip_branch (env : Env) (pd : PushData) (hc : HeadCommit)
    (hhc : pd.head_commit = some hc)
    (hbr : pd.ref ≠ "refs/heads/" ++ pd.repository.default_branch) :
    Part002.handleWebhook env (.ok pd) = (.skipped "Not default branch", []) := by
  have hbr' : (pd.ref != "refs/" ++ ("heads/" ++ pd.repository.default_branch)) = true := by
    rw [refs_heads_assoc]
    simpa using hbr
  simp [Part002.handleWebhook, Part002.webhookTry, hhc, hbr']

lemma part003_skip_branch (env : Env) (pd : PushData) (hc : HeadCommit)
    (hhc : pd.head_commit = some hc)
    (hai1 : strIncludes hc.message "[AI]" = false)
    (hai2 : strIncludes hc.message "AI README Bot" = false)
    (hbr : pd.ref ≠ "refs/heads/" ++ pd.repository.default_branch) :
    Part003.handleWebhook env (.ok pd) = (.skipped "Not default branch", []) := by
  have hbr' : (pd.ref != "refs/" ++ ("heads/" ++ pd.repository.default_branch)) = true := by
    rw [refs_heads_assoc]
    simpa using hbr
  simp [Part003.handleWebhook, Part003.webhookTry, hhc, hai1, hai2, hbr']

/-! ### Concrete fixtures used by closed witness / counterexample theorems -/

/-- A concrete repository object. -/
def demoRepo : Repository :=
  { name := "demo", owner := { login := "octo" }, default_branch := "main" }

/-- A head commit carrying the bot marker `[AI]` — exactly the message the
index.ts commit step writes. -/
def aiHeadCommit : HeadCommit :=
  { message := "docs: [AI] Update README.md based on recent changes",
    added := ["src/app.ts"], removed := [], modified := [] }

/-- A human-authored head commit. -/
def plainHeadCommit : HeadCommit :=
  { message := "feat: add feature",
    added := ["src/app.ts"], removed := [], modified := [] }

/-- Bot-marked push to the default branch. -/
def aiPush : PushData :=
  { ref := "refs/heads/main", head_commit := some aiHeadCommit,
    repository := demoRepo }

/-- Bot-marked push to a non-default branch. -/
def aiOffBranchPush : PushData :=
  { ref := "refs/heads/dev", head_commit := some aiHeadCommit,
    repository := demoRepo }

/-- Push payload with a null `head_commit`. -/
def noHeadPush : PushData :=
  { ref := "refs/heads/main", head_commit := none, repository := demoRepo }

/-- Human push to a non-default branch. -/
def offBranchPush : PushData :=
  { ref := "refs/heads/dev", head_commit := some plainHeadCommit,
    repository := demoRepo }

/-- Human push to the default branch. -/
def plainPush : PushData :=
  { ref := "refs/heads/main", head_commit := some plainHeadCommit,
    repository := demoRepo }

/-- A concrete environment: every file read throws 404, the tree is empty,
the model answers with a 120-character text, and the commit call
succeeds. -/
def testEnv : Env :=
  { getContent := fun _ => .error { status := 404, message := "Not Found" },
    getTree := .ok [],
    generate := fun _ => .ok { text := some (String.mk (List.replicate 120 'r')) },
    createOrUpdateFileContents := fun _ _ _ _ => .ok { commit_sha := "abc123" },
    decodeBase64 := id,
    encodeBase64 := id,
    githubTokenPresent := true }

/-! ### C1: the bot-commit skip -/

set_option maxRecDepth 100000 in
/-- C1 counterexample.  The `part_002` variant removed the bot-commit
check: a valid push payload whose head-commit message contains `[AI]` is
not answered with a skip response — the handler calls the model and
performs the write-back commit. -/
theorem C1_counterexample_part002_processes_ai :
    aiPush.head_commit = some aiHeadCommit ∧
    strIncludes aiHeadCommit.message "[AI]" = true ∧
    (Part002.handleWebhook testEnv (Except.ok aiPush)).1.isSkipped = false ∧
    (Part002.handleWebhook testEnv (Except.ok aiPush)).2.any Call.isGenerate = true ∧
    (Part002.handleWebhook testEnv (Except.ok aiPush)).2.any Call.isCommit = true := by
  refine ⟨rfl, by decide, by decide, by decide, by decide⟩

/-- C1 amended.  In the index.ts and `part_003` variants, every valid push
payload with a non-null head commit whose message contains `[AI]` gets a
skip response with an empty outbound-call trace (no model call, no file
write-back); the `part_002` variant dropped this check. -/
theorem C1_amended_ai_commit_skipped (env : Env) (pd : PushData)
    (hc : HeadCommit) (hhc : pd.head_commit = some hc)
    (hai : strIncludes hc.message "[AI]" = true) :
    IndexTs.handleWebhook env (.ok pd) = (.skipped "AI commit", []) ∧
    Part003.handleWebhook env (.ok pd) = (.skipped "AI bot commit detected", []) :=
  ⟨indexTs_skip_ai env pd hc hhc hai, part003_skip_ai env pd hc hhc hai⟩

set_option maxRecDepth 100000 in
/-- Witness for the amended C1, at the concrete bot-marked payload. -/
theorem C1_amended_witness :
    IndexTs.handleWebhook testEnv (Except.ok aiPush) =
      (Response.skipped "AI commit", []) ∧
    Part003.handleWebhook testEnv (Except.ok aiPush) =
      (Response.skipped "AI bot commit detected", []) :=
  C1_amended_ai_commit_skipped testEnv aiPush aiHeadCommit rfl (by decide)

/-! ### C2: the null-head-commit and non-default-branch skips -/

set_option maxRecDepth 100000 in
/-- C2 counterexample.  A valid payload with non-null head commit and a
non-default ref is not always answered with reason `Not default branch`:
when the commit message carries the `[AI]` marker, the index.ts handler
answers `AI commit` instead (the bot check runs before the branch check). -/
theorem C2_counterexample_ai_before_branch :
    aiOffBranchPush.head_commit ≠ none ∧
    aiOffBranchPush.ref ≠
      "refs/heads/" ++ aiOffBranchPush.repository.default_branch ∧
    (IndexTs.handleWebhook testEnv (Except.ok aiOffBranchPush)).1 ≠
      Response.skipped "Not default branch" := by
  refine ⟨by decide, by decide, by decide⟩

/-- C2 amended.  For every valid payload: a null `head_commit` yields the
skip `No head_commit found` with no outbound call, in all three variants;
a non-default ref yields the skip `Not default branch` with no outbound
call — unconditionally in `part_002`, and provided the commit message does
not carry the bot marker(s) in index.ts and `part_003`, whose bot check
runs first. -/
theorem C2_amended_early_skips (env : Env) (pd : PushData) :
    (pd.head_commit = none →
      IndexTs.handleWebhook env (.ok pd) = (.skipped "No head_commit found", []) ∧
      Part002.handleWebhook env (.ok pd) = (.skipped "No head_commit found", []) ∧
      Part003.handleWebhook env (.ok pd) = (.skipped "No head_commit found", [])) ∧
    (∀ hc, pd.head_commit = some hc →
      pd.ref ≠ "refs/heads/" ++ pd.repository.default_branch →
      Part002.handleWebhook env (.ok pd) = (.skipped "Not default branch", []) ∧
      (strIncludes hc.message "[AI]" = false →
        IndexTs.handleWebhook env (.ok pd) = (.skipped "Not default branch", [])) ∧
      (strIncludes hc.message "[AI]" = false →
        strIncludes hc.message "AI README Bot" = false →
        Part003.handleWebhook env (.ok pd) = (.skipped "Not default branch", []))) := by
  constructor
  · intro h
    exact ⟨indexTs_skip_noHead env pd h, part002_skip_noHead env pd h,
      part003_skip_noHead env pd h⟩
  · intro hc hhc hbr
    refine ⟨part002_skip_branch env pd hc hhc hbr, ?_, ?_⟩
    · intro hai
      exact indexTs_skip_branch env pd hc hhc hai hbr
    · intro hai1 hai2
      exact part003_skip_branch env pd hc hhc hai1 hai2 hbr

set_option maxRecDepth 100000 in
/-- Witness for the amended C2: the null-head-commit payload and the
off-branch payload at the concrete environment. -/
theorem C2_amended_witness :
    Part002.handleWebhook testEnv (Except.ok noHeadPush) =
      (Response.skipped "No head_commit found", []) ∧
    Part002.handleWebhook testEnv (Except.ok offBranchPush) =
      (Response.skipped "Not default branch", []) ∧
    IndexTs.handleWebhook testEnv (Except.ok offBranchPush) =
      (Response.skipped "Not default branch", []) ∧
    Part003.handleWebhook testEnv (Except.ok offBranchPush) =
      (Response.skipped "Not default branch", []) := by
  refine ⟨((C2_amended_early_skips testEnv noHeadPush).1 rfl).2.1, ?_, ?_, ?_⟩
  · exact ((C2_amended_early_skips testEnv offBranchPush).2 plainHeadCommit rfl
      (by decide)).1
  · exact ((C2_amended_early_skips testEnv offBranchPush).2 plainHeadCommit rfl
      (by decide)).2.1 (by decide)
  · exact ((C2_amended_early_skips testEnv offBranchPush).2 plainHeadCommit rfl
      (by decide)).2.2 (by decide) (by decide)

/-! ### C6: thrown errors become generic 500 responses -/

/-- A parse outcome standing for a thrown payload parse failure. -/
def badParse : Except GhError PushData :=
  .error { status := 0, message := "invalid payload" }

/-- C6.  For every webhook request on which the try-block processing
throws (payload parse failure, API failure or model failure), the handler
catches the error and returns the variant's generic `success:false`
failure JSON with HTTP status 500; the response of the handler is always
one of the three modelled JSON responses, with status 200 or 500, so the
error never propagates. -/
theorem C6_errors_become_500 (env : Env) (parse : Except GhError PushData) :
    (∀ e tr, IndexTs.webhookTry env parse = .error (e, tr) →
      IndexTs.handleWebhook env parse =
        (.failure "Failed to process push" (some e.message), tr)) ∧
    (∀ e tr, Part003.webhookTry env parse = .error (e, tr) →
      Part003.handleWebhook env parse =
        (.failure "Webhook processing failed" (some e.message), tr)) ∧
    (∀ err details, (Response.failure err details).httpStatus = 500 ∧
      (Response.failure err details).successFlag = some false) ∧
    ((IndexTs.handleWebhook env parse).1.httpStatus = 200 ∨
     (IndexTs.handleWebhook env parse).1.httpStatus = 500) ∧
    ((Part003.handleWebhook env parse).1.httpStatus = 200 ∨
     (Part003.handleWebhook env parse).1.httpStatus = 500) := by
  refine ⟨?_, ?_, ?_, ?_, ?_⟩
  · intro e tr h
    unfold IndexTs.handleWebhook
    rw [h]
  · intro e tr h
    unfold Part003.handleWebhook
    rw [h]
  · intro err details
    exact ⟨rfl, rfl⟩
  · cases h : (IndexTs.handleWebhook env parse).1 <;> simp [Response.httpStatus]
  · cases h : (Part003.handleWebhook env parse).1 <;> simp [Response.httpStatus]

/-- Witness for C6: a throwing payload parse is answered with the generic
failure response and an empty call trace, in both cited variants. -/
theorem C6_witness :
    IndexTs.handleWebhook testEnv badParse =
      (Response.failure "Failed to process push" (some "invalid payload"), []) ∧
    Part003.handleWebhook testEnv badParse =
      (Response.failure "Webhook processing failed" (some "invalid payload"), []) := by
  have h := C6_errors_become_500 testEnv badParse
  exact ⟨h.1 { status := 0, message := "invalid payload" } [] rfl,
    h.2.1 { status := 0, message := "invalid payload" } [] rfl⟩

/-! ### C7: the pipeline is linear, with no retry -/

/-- C7.  In the index.ts and `part_003` variants: a skip response is
decided before any outbound call (its trace is empty); the model is called
at most once; the commit is performed at most once; and every commit call
in the trace is preceded by a model call (the commit happens only after
the model call returned). -/
theorem C7_linear_pipeline (env : Env) (parse : Except GhError PushData) :
    ((IndexTs.handleWebhook env parse).1.isSkipped = true →
      (IndexTs.handleWebhook env parse).2 = []) ∧
    (IndexTs.handleWebhook env parse).2.countP Call.isGenerate ≤ 1 ∧
    (IndexTs.handleWebhook env parse).2.countP Call.isCommit ≤ 1 ∧
    (∀ m b br, Call.commit m b br ∈ (IndexTs.handleWebhook env parse).2 →
      ∃ pre post, (IndexTs.handleWebhook env parse).2 =
        pre ++ Call.commit m b br :: post ∧ ∃ p, Call.generate p ∈ pre) ∧
    ((Part003.handleWebhook env parse).1.isSkipped = true →
      (Part003.handleWebhook env parse).2 = []) ∧
    (Part003.handleWebhook env parse).2.countP Call.isGenerate ≤ 1 ∧
    (Part003.handleWebhook env parse).2.countP Call.isCommit ≤ 1 ∧
    (∀ m b br, Call.commit m b br ∈ (Part003.handleWebhook env parse).2 →
      ∃ pre post, (Part003.handleWebhook env parse).2 =
        pre ++ Call.commit m b br :: post ∧ ∃ p, Call.generate p ∈ pre) := by
  obtain ⟨h1, h2, h3, h4⟩ := indexTs_handle_props env parse
  obtain ⟨g1, g2, g3, g4⟩ := part003_handle_props env parse
  exact ⟨h1, h2, h3, fun m b br hm => (h4 m b br hm).2,
    g1, g2, g3, fun m b br hm => (g4 m b br hm).2⟩

set_option maxRecDepth 1000000 in
/-- Witness for C7: at the concrete environment, the bot push is skipped
with an empty trace, and the human push commits exactly once, after the
model call. -/
theorem C7_witness :
    (IndexTs.handleWebhook testEnv (Except.ok aiPush)).2 = [] ∧
    (IndexTs.handleWebhook testEnv (Except.ok plainPush)).2.countP
      Call.isGenerate ≤ 1 ∧
    (∃ pre post, (IndexTs.handleWebhook testEnv (Except.ok plainPush)).2 =
      pre ++ Call.commit IndexTs.commitMessage
        (String.mk (List.replicate 120 'r')) "main" :: post ∧
      ∃ p, Call.generate p ∈ pre) := by
  refine ⟨(C7_linear_pipeline testEnv (Except.ok aiPush)).1 (by decide),
    (C7_linear_pipeline testEnv (Except.ok plainPush)).2.1,
    (C7_linear_pipeline testEnv (Except.ok plainPush)).2.2.2.1
      IndexTs.commitMessage (String.mk (List.replicate 120 'r')) "main"
      (by decide)⟩

/-! ### C9: the loop-prevention invariant -/

/-- C9.  Every commit the index.ts and `part_003` endpoints create carries
the `[AI]` marker in its message (the fixed commit messages contain
`[AI]`, and any commit call in any trace uses them); and a webhook whose
head-commit message contains `[AI]` — in particular one triggered by the
endpoint's own commit — is answered with a skip and an empty trace, so it
never produces a further commit. -/
theorem C9_loop_prevention (env : Env) (parse : Except GhError PushData) :
    strIncludes IndexTs.commitMessage "[AI]" = true ∧
    strIncludes Part003.commitMessage "[AI]" = true ∧
    (∀ m b br, Call.commit m b br ∈ (IndexTs.handleWebhook env parse).2 →
      strIncludes m "[AI]" = true) ∧
    (∀ m b br, Call.commit m b br ∈ (Part003.handleWebhook env parse).2 →
      strIncludes m "[AI]" = true) ∧
    (∀ pd hc, parse = Except.ok pd → pd.head_commit = some hc →
      strIncludes hc.message "[AI]" = true →
      IndexTs.handleWebhook env parse = (.skipped "AI commit", []) ∧
      Part003.handleWebhook env parse =
        (.skipped "AI bot commit detected", [])) := by
  refine ⟨by decide, by decide, ?_, ?_, ?_⟩
  · intro m b br hm
    have := ((indexTs_handle_props env parse).2.2.2 m b br hm).1
    subst this
    decide
  · intro m b br hm
    have := ((part003_handle_props env parse).2.2.2 m b br hm).1
    subst this
    decide
  · intro pd hc hparse hhc hai
    subst hparse
    exact ⟨indexTs_skip_ai env pd hc hhc hai, part003_skip_ai env pd hc hhc hai⟩

set_option maxRecDepth 1000000 in
/-- Witness for C9: the concrete human push produces a commit whose
message carries `[AI]`, and the concrete bot push is skipped by both
variants. -/
theorem C9_witness :
    strIncludes IndexTs.commitMessage "[AI]" = true ∧
    IndexTs.handleWebhook testEnv (Except.ok aiPush) =
      (Response.skipped "AI commit", []) ∧
    Part003.handleWebhook testEnv (Except.ok aiPush) =
      (Response.skipped "AI bot commit detected", []) := by
  have h := C9_loop_prevention testEnv (Except.ok plainPush)
  have h2 := C9_loop_prevention testEnv (Except.ok aiPush)
  refine ⟨h.2.2.1 IndexTs.commitMessage
      (String.mk (List.replicate 120 'r')) "main" (by decide), ?_, ?_⟩
  · exact (h2.2.2.2.2 aiPush aiHeadCommit rfl rfl (by decide)).1
  · exact (h2.2.2.2.2 aiPush aiHeadCommit rfl rfl (by decide)).2

/-! ### C4: per-file truncation before concatenation -/

lemma strTake_length (s : String) (n : Nat) :
    (strTake s n).length = min n s.length := by
  show (s.data.take n).length = min n s.length
  rw [List.length_take]
  rfl

lemma part002_truncate_length (c : String) :
    (Part002.truncateContent c).length ≤
      2000 + ("\n...[truncated]" : String).length := by
  have hm : ("\n...[truncated]" : String).length = 15 := rfl
  unfold Part002.truncateContent
  by_cases h : c.length > 2000
  · rw [if_pos h, String.length_append, strTake_length]
    omega
  · rw [if_neg h]
    omega

lemma part003_truncate_length (c : String) :
    (Part003.truncateContent c).length ≤
      1500 + ("\n... [truncated for brevity]" : String).length := by
  have hm : ("\n... [truncated for brevity]" : String).length = 28 := rfl
  unfold Part003.truncateContent
  by_cases h : c.length > 1500
  · rw [if_pos h, String.length_append, strTake_length]
    omega
  · rw [if_neg h]
    omega

lemma part002_changedLoop_length (env : Env) (files : List String) :
    (Part002.changedFilesLoop env files).1.length ≤
      (files.map fun f =>
        f.length + (11 + (2000 + ("\n...[truncated]" : String).length))).sum := by
  induction files with
  | nil => simp [Part002.changedFilesLoop]
  | cons f rest ih =>
    simp only [Part002.changedFilesLoop, List.map_cons, List.sum_cons]
    cases hv : getFileContentVal env f with
    | some c =>
      by_cases h0 : c.length > 0
      · simp only [hv, h0, if_true]
        have ht := part002_truncate_length c
        have h5 : ("\n--- " : String).length = 5 := rfl
        have h5b : (" ---\n" : String).length = 5 := rfl
        have h1 : ("\n" : String).length = 1 := rfl
        simp only [String.length_append]
        omega
      · simp only [hv, h0, if_false]
        omega
    | none =>
      simp only [hv]
      omega

/-- A 2100-character file body, longer than any per-file bound used by the
truncating variants. -/
def bigContent : String := String.mk (List.replicate 2100 'a')

/-- Environment in which only `big.ts` exists and its content is
`bigContent`. -/
def bigFileEnv : Env :=
  { testEnv with
    getContent := fun path =>
      if path == "big.ts" then .ok { content := some bigContent, sha := none }
      else .error { status := 404, message := "Not Found" } }

/-- C4 counterexample.  The index.ts variant concatenates the fetched file
content with no per-file truncation: a 2100-character file appears whole
in the aggregated prompt text, which therefore exceeds the 2000-character
bound (plus marker) that the truncating variants would allow. -/
theorem C4_counterexample_indexTs_no_truncation :
    (IndexTs.getRelevantChangedFiles bigFileEnv ["big.ts"]).1 =
      "\n--- big.ts ---\n" ++ (bigContent ++ "\n") ∧
    2000 + ("\n...[truncated]" : String).length <
      (IndexTs.getRelevantChangedFiles bigFileEnv ["big.ts"]).1.length := by
  have hv : getFileContentVal bigFileEnv "big.ts" = some bigContent := rfl
  have hne : (bigContent != "") = true := rfl
  have hfil : relevantFilesOf ["big.ts"] = ["big.ts"] := by decide
  have hassoc : ∀ a b c : String, (a ++ b) ++ c = a ++ (b ++ c) := by
    intro a b c
    apply String.ext
    simp only [String.data_append, List.append_assoc]
  have hempty : ∀ s : String, s ++ "" = s := by
    intro s
    apply String.ext
    simp only [String.data_append]
    exact List.append_nil _
  have hmain : (IndexTs.getRelevantChangedFiles bigFileEnv ["big.ts"]).1 =
      "\n--- big.ts ---\n" ++ (bigContent ++ "\n") := by
    unfold IndexTs.getRelevantChangedFiles
    rw [hfil]
    show (IndexTs.changedFilesLoop bigFileEnv ["big.ts"]).1 = _
    simp only [IndexTs.changedFilesLoop, hv, hne, if_true]
    show (("\n--- " ++ "big.ts" ++ " ---\n" ++ bigContent ++ "\n") ++ "") = _
    rw [hempty]
    have hc1 : ("\n--- " : String) ++ "big.ts" = "\n--- big.ts" := rfl
    have hc2 : ("\n--- big.ts" : String) ++ " ---\n" = "\n--- big.ts ---\n" := rfl
    rw [hc1, hc2, hassoc]
  refine ⟨hmain, ?_⟩
  rw [hmain]
  have hbig : bigContent.length = 2100 := by
    show (List.replicate 2100 'a').length = 2100
    rw [List.length_replicate]
  have h16 : ("\n--- big.ts ---\n" : String).length = 16 := rfl
  have h1 : ("\n" : String).length = 1 := rfl
  have h15 : ("\n...[truncated]" : String).length = 15 := rfl
  rw [String.length_append, String.length_append, hbig, h16, h1, h15]
  omega

/-- C4 amended.  In the `part_002` and `part_003` variants every fetched
file's text is truncated to the fixed per-file bound (2000 and 1500
characters plus a fixed truncation marker) before concatenation, and the
`part_002` changed-file aggregation output is bounded by the sum of the
per-file bounds; the index.ts variant concatenates the full content with
no per-file bound. -/
theorem C4_amended_truncation (env : Env) (files : List String) (c : String) :
    (Part002.truncateContent c).length ≤
      2000 + ("\n...[truncated]" : String).length ∧
    (Part003.truncateContent c).length ≤
      1500 + ("\n... [truncated for brevity]" : String).length ∧
    (Part002.changedFilesLoop env files).1.length ≤
      (files.map fun f =>
        f.length + (11 + (2000 + ("\n...[truncated]" : String).length))).sum :=
  ⟨part002_truncate_length c, part003_truncate_length c,
    part002_changedLoop_length env files⟩

/-! ### C10: the minimum-length guard of the truncating variants -/

lemma part002_scanLoop_calls (env : Env) (items : List TreeItem) :
    ∃ (l : List String), (Part002.scanLoop env items).2 = l.map Call.getContent := by
  induction items with
  | nil => exact ⟨[], rfl⟩
  | cons item rest ih =>
    obtain ⟨l, hl⟩ := ih
    simp only [Part002.scanLoop]
    cases hpath : item.path with
    | none => exact ⟨l, hl⟩
    | some p =>
      cases hpt : (p != "") with
      | false => exact ⟨l, by simp [hpt, hl]⟩
      | true =>
        cases hv : getFileContentVal env p with
        | some content =>
          by_cases h0 : content.length > 0
          · exact ⟨p :: l, by simp [hpt, hv, h0, hl]⟩
          · exact ⟨p :: l, by simp [hpt, hv, h0, hl]⟩
        | none => exact ⟨p :: l, by simp [hpt, hv, hl]⟩

lemma part002_contextTrace_countGen (env : Env) (hc : HeadCommit) :
    (Part002.contextTraceOf env hc).countP Call.isGenerate = 0 := by
  unfold Part002.contextTraceOf Part002.getProjectContext
  cases he : ((relevantFilesOf (allChangedFilesOf hc)).length == 0) with
  | true =>
    simp only [he, if_true]
    cases ht : env.getTree with
    | ok tree =>
      obtain ⟨l, hl⟩ := part002_scanLoop_calls env
        ((tree.filter Part002.isKeyFile).take 8)
      simp [hl, List.countP_cons, Call.isGenerate, map_getContent_countP_gen]
    | error e => simp [List.countP_cons, Call.isGenerate]
  | false =>
    simp only [he, Bool.false_eq_true, if_false]
    rw [part002_changedFilesLoop_trace]
    simp [List.countP_cons, Call.isGenerate, map_getContent_countP_gen,
      take_map_getContent_countP_gen]

lemma part002_contextTrace_countCommit (env : Env) (hc : HeadCommit) :
    (Part002.contextTraceOf env hc).countP Call.isCommit = 0 := by
  unfold Part002.contextTraceOf Part002.getProjectContext
  cases he : ((relevantFilesOf (allChangedFilesOf hc)).length == 0) with
  | true =>
    simp only [he, if_true]
    cases ht : env.getTree with
    | ok tree =>
      obtain ⟨l, hl⟩ := part002_scanLoop_calls env
        ((tree.filter Part002.isKeyFile).take 8)
      simp [hl, List.countP_cons, Call.isCommit, map_getContent_countP_commit]
    | error e => simp [List.countP_cons, Call.isCommit]
  | false =>
    simp only [he, Bool.false_eq_true, if_false]
    rw [part002_changedFilesLoop_trace]
    simp [List.countP_cons, Call.isCommit, map_getContent_countP_commit,
      take_map_getContent_countP_commit]

lemma part002_mc_guard (env : Env) (pd : PushData) (c : String)
    (tr0 : List Call)
    (h0g : tr0.countP Call.isGenerate = 0)
    (h0c : tr0.countP Call.isCommit = 0)
    (p : String) (res : GenResponse)
    (hp : Call.generate p ∈ tryTrace (Part002.modelAndCommit env pd c tr0))
    (hg : env.generate p = .ok res)
    (hshort : res.text = none ∨ ∃ t, res.text = some t ∧ t.length < 50) :
    Part002.modelAndCommit env pd c tr0 =
      .ok (.failure "Generated README too short" none,
        tr0 ++ [Call.generate c]) ∧
    (∀ m b br, Call.commit m b br ∉
      tryTrace (Part002.modelAndCommit env pd c tr0)) := by
  have hnotin : Call.generate p ∉ tr0 := fun hm =>
    absurd rfl (List.countP_eq_zero.1 h0g _ hm)
  have hpc : p = c := by
    obtain ⟨body, branch, hskip, hsh⟩ := part002_modelAndCommit_shape env pd c tr0
    rcases hsh with h | h | h <;> rw [h] at hp <;>
      rcases List.mem_append.1 hp with h1 | h2
    · exact absurd h1 hnotin
    · simpa using h2
    · exact absurd h1 hnotin
    · simpa using h2
    · exact absurd h1 hnotin
    · simpa using h2
  subst hpc
  have heq : Part002.modelAndCommit env pd p tr0 =
      .ok (.failure "Generated README too short" none,
        tr0 ++ [Call.generate p]) := by
    rcases hshort with ht | ⟨t, ht, hlen⟩
    · exact part002_mc_textNone env pd p tr0 res hg ht
    · exact part002_mc_textShort env pd p tr0 res t hg ht hlen
  refine ⟨heq, ?_⟩
  rw [heq]
  intro m b br hm
  rcases List.mem_append.1 hm with h1 | h2
  · exact absurd rfl (List.countP_eq_zero.1 h0c _ h1)
  · simp at h2

lemma part003_mc_guard (env : Env) (pd : PushData) (c : String)
    (tr0 : List Call)
    (h0g : tr0.countP Call.isGenerate = 0)
    (h0c : tr0.countP Call.isCommit = 0)
    (p : String) (res : GenResponse)
    (hp : Call.generate p ∈ tryTrace (Part003.modelAndCommit env pd c tr0))
    (hg : env.generate p = .ok res)
    (hshort : res.text = none ∨ ∃ t, res.text = some t ∧ t.length < 100) :
    Part003.modelAndCommit env pd c tr0 =
      .ok (.failure "Generated README too short or empty" none,
        tr0 ++ [Call.generate c]) ∧
    (∀ m b br, Call.commit m b br ∉
      tryTrace (Part003.modelAndCommit env pd c tr0)) := by
  have hnotin : Call.generate p ∉ tr0 := fun hm =>
    absurd rfl (List.countP_eq_zero.1 h0g _ hm)
  have hpc : p = c := by
    obtain ⟨body, branch, hskip, hsh⟩ := part003_modelAndCommit_shape env pd c tr0
    rcases hsh with h | h | h <;> rw [h] at hp <;>
      rcases List.mem_append.1 hp with h1 | h2
    · exact absurd h1 hnotin
    · simpa using h2
    · exact absurd h1 hnotin
    · simpa using h2
    · exact absurd h1 hnotin
    · simpa using h2
  subst hpc
  have heq : Part003.modelAndCommit env pd p tr0 =
      .ok (.failure "Generated README too short or empty" none,
        tr0 ++ [Call.generate p]) := by
    rcases hshort with ht | ⟨t, ht, hlen⟩
    · exact part003_mc_textNone env pd p tr0 res hg ht
    · exact part003_mc_textShort env pd p tr0 res t hg ht hlen
  refine ⟨heq, ?_⟩
  rw [heq]
  intro m b br hm
  rcases List.mem_append.1 hm with h1 | h2
  · exact absurd rfl (List.countP_eq_zero.1 h0c _ h1)
  · simp at h2

/-- C10.  In the `part_002` and `part_003` variants, whenever the model
was called and answered with a missing text or one shorter than the
minimum length (50 characters in `part_002`, 100 in `part_003`), the
endpoint returns the variant's minimum-length failure response with HTTP
status 500 and no commit call ever appears in the trace — the repository
README is left unchanged. -/
theorem C10_min_length_guard (env : Env) (parse : Except GhError PushData) :
    (∀ p res, Call.generate p ∈ (Part002.handleWebhook env parse).2 →
      env.generate p = .ok res →
      (res.text = none ∨ ∃ t, res.text = some t ∧ t.length < 50) →
      (Part002.handleWebhook env parse).1 =
        .failure "Generated README too short" none ∧
      (Part002.handleWebhook env parse).1.httpStatus = 500 ∧
      ∀ m b br, Call.commit m b br ∉ (Part002.handleWebhook env parse).2) ∧
    (∀ p res, Call.generate p ∈ (Part003.handleWebhook env parse).2 →
      env.generate p = .ok res →
      (res.text = none ∨ ∃ t, res.text = some t ∧ t.length < 100) →
      (Part003.handleWebhook env parse).1 =
        .failure "Generated README too short or empty" none ∧
      (Part003.handleWebhook env parse).1.httpStatus = 500 ∧
      ∀ m b br, Call.commit m b br ∉ (Part003.handleWebhook env parse).2) := by
  constructor
  · intro p res hp hg hshort
    cases parse with
    | error e =>
      rw [part002_handle_trace_eq] at hp
      simp [Part002.webhookTry, tryTrace] at hp
    | ok pd =>
      cases hhc : pd.head_commit with
      | none =>
        rw [part002_handle_trace_eq, part002_try_noHead env pd hhc] at hp
        simp [tryTrace] at hp
      | some hc =>
        cases hbr : (pd.ref != "refs/" ++ ("heads/" ++ pd.repository.default_branch)) with
        | true =>
          rw [part002_handle_trace_eq, part002_try_branch env pd hc hhc hbr] at hp
          simp [tryTrace] at hp
        | false =>
          have htry := part002_try_proceed env pd hc hhc hbr
          rw [part002_handle_trace_eq, htry] at hp
          have hguard := part002_mc_guard env pd (Part002.aiPromptOf env pd hc)
            (Part002.contextTraceOf env hc)
            (part002_contextTrace_countGen env hc)
            (part002_contextTrace_countCommit env hc) p res hp hg hshort
          have hh : Part002.handleWebhook env (Except.ok pd) =
              (.failure "Generated README too short" none,
                Part002.contextTraceOf env hc ++
                  [Call.generate (Part002.aiPromptOf env pd hc)]) := by
            unfold Part002.handleWebhook
            rw [htry.trans hguard.1]
          refine ⟨by rw [hh], by rw [hh]; rfl, ?_⟩
          intro m b br hm
          rw [hh] at hm
          have hnc := hguard.2 m b br
          rw [hguard.1] at hnc
          exact hnc hm
  · intro p res hp hg hshort
    cases parse with
    | error e =>
      rw [part003_handle_trace_eq] at hp
      simp [Part003.webhookTry, tryTrace] at hp
    | ok pd =>
      cases hhc : pd.head_commit with
      | none =>
        rw [part003_handle_trace_eq, part003_try_noHead env pd hhc] at hp
        simp [tryTrace] at hp
      | some hc =>
        cases hai1 : strIncludes hc.message "[AI]" with
        | true =>
          rw [part003_handle_trace_eq,
            part003_try_ai env pd hc hhc (by simp [hai1])] at hp
          simp [tryTrace] at hp
        | false =>
          cases hai2 : strIncludes hc.message "AI README Bot" with
          | true =>
            rw [part003_handle_trace_eq,
              part003_try_ai env pd hc hhc (by simp [hai2])] at hp
            simp [tryTrace] at hp
          | false =>
            cases hbr : (pd.ref != "refs/" ++ ("heads/" ++ pd.repository.default_branch)) with
            | true =>
              rw [part003_handle_trace_eq,
                part003_try_branch env pd hc hhc hai1 hai2 hbr] at hp
              simp [tryTrace] at hp
            | false =>
              cases htok : env.githubTokenPresent with
              | false =>
                rw [part003_handle_trace_eq,
                  part003_try_noToken env pd hc hhc hai1 hai2 hbr htok] at hp
                simp [tryTrace] at hp
              | true =>
                have htry := part003_try_proceed env pd hc hhc hai1 hai2 hbr htok
                rw [part003_handle_trace_eq, htry] at hp
                have hguard := part003_mc_guard env pd
                  (Part003.aiPromptOf env pd hc)
                  (Part003.getProjectStructure env).2
                  (part003_structure_countGen env)
                  (part003_structure_countCommit env) p res hp hg hshort
                have hh : Part003.handleWebhook env (Except.ok pd) =
                    (.failure "Generated README too short or empty" none,
                      (Part003.getProjectStructure env).2 ++
                        [Call.generate (Part003.aiPromptOf env pd hc)]) := by
                  unfold Part003.handleWebhook
                  rw [htry.trans hguard.1]
                refine ⟨by rw [hh], by rw [hh]; rfl, ?_⟩
                intro m b br hm
                rw [hh] at hm
                have hnc := hguard.2 m b br
                rw [hguard.1] at hnc
                exact hnc hm

/-- Environment in which every file read throws 404, the tree is empty,
the commit call succeeds, and the model always answers with the
9-character text `too short`. -/
def shortTextEnv : Env :=
  { testEnv with generate := fun _ => .ok { text := some "too short" } }

set_option maxRecDepth 1000000 in
/-- Witness for C10: at the concrete short-answer environment, both
variants return the minimum-length failure and never commit. -/
theorem C10_min_length_guard_witness :
    (Part002.handleWebhook shortTextEnv (Except.ok plainPush)).1 =
      Response.failure "Generated README too short" none ∧
    Call.commit Part002.commitMessage "too short" "main" ∉
      (Part002.handleWebhook shortTextEnv (Except.ok plainPush)).2 ∧
    (Part003.handleWebhook shortTextEnv (Except.ok plainPush)).1 =
      Response.failure "Generated README too short or empty" none := by
  have h2 := (C10_min_length_guard shortTextEnv (Except.ok plainPush)).1
    (Part002.aiPromptOf shortTextEnv plainPush plainHeadCommit)
    { text := some "too short" } (by decide) rfl
    (Or.inr ⟨"too short", rfl, by decide⟩)
  have h3 := (C10_min_length_guard shortTextEnv (Except.ok plainPush)).2
    (Part003.aiPromptOf shortTextEnv plainPush plainHeadCommit)
    { text := some "too short" } (by decide) rfl
    (Or.inr ⟨"too short", rfl, by decide⟩)
  exact ⟨h2.1, h2.2.2 Part002.commitMessage "too short" "main", h3.1⟩

end AgentChallenge
